import Mathlib

/-!
# Verification of the esp-brew-engine brewing controller core

Shallow embedding of the brewing-engine firmware
(`src/components/brew-engine/brew-engine.cpp`,
`src/shared_components/statistics-manager/statistics-manager.cpp`,
`src/shared_components/settings-manager/settings-manager.cpp`) in Lean 4,
and theorems settling the specification claims about it.

Conventions of the embedding:
* C/C++ `float` / `double` arithmetic is modelled with exact rationals `ℚ`;
  casts `(int)`, `(uint)`, `(uint16_t)` of non-negative values truncate, which
  is `Int.floor` on non-negative rationals.  IEEE NaN (which the source can
  produce as `0.0f / 0`) is modelled by `Option ℚ` with `none` for NaN, and the
  comparison helpers below mirror IEEE semantics: every ordered comparison
  against NaN is false.
* `std::chrono::system_clock::time_point` values are modelled as `ℤ` seconds
  relative to the anchor time of the running schedule; `minutes x` is `60 * x`.
* The NVS key/value store is modelled as a function `String → Option StoredVal`;
  byte-level (de)serialisation of records stored as blobs is abstracted by
  storing the record itself, which is faithful for the round-trip reads the
  code performs with `memcpy`.
* Engine collections that no claim touches (sensor list, heater configuration
  storage, stir state, transports) are left outside the modelled state; the
  command handlers that only mutate those collections act as the identity on
  the modelled state, exactly as the source does on the modelled fields.
-/

namespace BrewEngineModel

/-! ## NaN-aware comparisons

The source compares `float` values that may be NaN.  In C++ every ordered
comparison with NaN evaluates to false; `none` plays the role of NaN. -/

/-- `a < b` for a possibly-NaN left operand (false when NaN). -/
def nanLt (a : Option ℚ) (b : ℚ) : Bool :=
  match a with
  | none => false
  | some x => decide (x < b)

/-- `a ≥ b` for a possibly-NaN left operand (false when NaN). -/
def nanGe (a : Option ℚ) (b : ℚ) : Bool :=
  match a with
  | none => false
  | some x => decide (b ≤ x)

/-- `t - a ≥ m` for a possibly-NaN `a` (false when NaN); this is the shape of
the overtime-entry comparison `(nextStep->temperature - instance->temperature)
>= instance->tempMargin`. -/
def nanSubGe (t : ℚ) (a : Option ℚ) (m : ℚ) : Bool :=
  match a with
  | none => false
  | some x => decide (m ≤ t - x)

/-- `t - a ≤ m` for a possibly-NaN `a` (false when NaN); the overtime-exit
comparison. -/
def nanSubLe (t : ℚ) (a : Option ℚ) (m : ℚ) : Bool :=
  match a with
  | none => false
  | some x => decide (t - x ≤ m)

/-- `a < b` where both operands may be NaN (false if either is NaN); the
boost-rest-exit comparison `instance->temperature < prevTemperature`. -/
def nanLtNan (a b : Option ℚ) : Bool :=
  match a, b with
  | some x, some y => decide (x < y)
  | _, _ => false

/-! ## The key/value settings store (settings-manager.cpp)

NVS stores typed values under string keys.  Reads of an absent key write and
return the supplied default; reads of a key holding a different type return 0
without writing (the source logs the error and returns its zero-initialised
local). -/

/-- One downsampled sample of a brew session
(`statistics-manager.h`): timestamp, 8-bit average and target temperatures,
PID output. -/
structure TempDataPoint where
  timestamp : ℤ
  avgTemp : ℤ
  targetTemp : ℤ
  pidOutput : ℕ
  deriving DecidableEq

/-- A persisted brew session record (`statistics-manager.h`).  `scheduleName`
is a 32-byte `char` array in the source, so at most 31 characters survive the
`strncpy`. -/
structure BrewSession where
  sessionId : ℕ
  startTime : ℤ
  endTime : ℤ
  scheduleName : String
  dataPoints : ℕ
  avgTemperature : ℚ
  maxTemperature : ℤ
  minTemperature : ℤ
  totalDuration : ℤ
  completed : Bool
  deriving DecidableEq

/-- A value stored in the NVS namespace.  Blob contents that the code only
round-trips through `memcpy` are kept as the records themselves
(`blobSession` for a serialized `BrewSession`, `blobPoints` for a serialized
sample vector); `bytes` covers raw blobs such as the empty overwrite used to
delete a session. -/
inductive StoredVal where
  | u8 (n : ℕ)
  | u16 (n : ℕ)
  | str (s : String)
  | bytes (l : List ℕ)
  | blobSession (b : BrewSession)
  | blobPoints (l : List TempDataPoint)
  deriving DecidableEq

/-- The NVS namespace: keys to stored values. -/
def Store : Type := String → Option StoredVal

/-- Write a value under a key (`nvs_set_*`). -/
def Store.write (st : Store) (key : String) (v : StoredVal) : Store :=
  fun k => if k = key then some v else st k

/-- `SettingsManager::Read(name, uint16_t defaultValue)`: return the stored
u16; if the key is absent, persist and return the default; on a type mismatch
the source returns its zero-initialised local without writing. -/
def Store.readU16 (st : Store) (key : String) (dflt : ℕ) : ℕ × Store :=
  match st key with
  | some (.u16 n) => (n, st)
  | none => (dflt, st.write key (.u16 dflt))
  | some _ => (0, st)

/-- `SettingsManager::Read(name, uint8_t defaultValue)`, same contract as the
u16 overload. -/
def Store.readU8 (st : Store) (key : String) (dflt : ℕ) : ℕ × Store :=
  match st key with
  | some (.u8 n) => (n, st)
  | none => (dflt, st.write key (.u8 dflt))
  | some _ => (0, st)

/-! ## PID coefficient persistence (C9)

`savePIDSettings` stores each `double` coefficient as
`(uint16_t)(coefficient * 10)`; `readSettings` divides the stored integer by
10 (`brew-engine.cpp` lines 479-499, 571-597). -/

/-- `(uint16_t)(v * 10)` for a `double` `v`: truncation toward zero of the
non-negative product, reduced mod 2^16 (the cast is only defined behaviour for
in-range values; the claims restrict to that range). -/
def pidCoeffToU16 (v : ℚ) : ℕ :=
  (Int.toNat ⌊v * 10⌋) % 65536

/-- The six PID coefficients held by the engine. -/
structure PIDSettings where
  mashkP : ℚ
  mashkI : ℚ
  mashkD : ℚ
  boilkP : ℚ
  boilkI : ℚ
  boilkD : ℚ
  deriving DecidableEq

/-- `BrewEngine::savePIDSettings`: persist each coefficient times ten as a
u16 (the `pidLoopTime` / `stepInterval` / `boostModeUntil` writes of the same
function are included for completeness). -/
def savePIDSettings (st : Store) (p : PIDSettings) (pidLoopTime stepInterval boostModeUntil : ℕ) : Store :=
  ((((((((st.write "kP" (.u16 (pidCoeffToU16 p.mashkP))).write
      "kI" (.u16 (pidCoeffToU16 p.mashkI))).write
      "kD" (.u16 (pidCoeffToU16 p.mashkD))).write
      "boilkP" (.u16 (pidCoeffToU16 p.boilkP))).write
      "boilkI" (.u16 (pidCoeffToU16 p.boilkI))).write
      "boilkD" (.u16 (pidCoeffToU16 p.boilkD))).write
      "pidLoopTime" (.u16 (pidLoopTime % 65536))).write
      "stepInterval" (.u16 (stepInterval % 65536))).write
      "boostModeUntil" (.u8 (boostModeUntil % 256))

/-- The PID-coefficient part of `BrewEngine::readSettings`: read each u16 with
the current (default) coefficient value times ten as the seeded default, then
divide by 10.  Returns the loaded coefficients and the possibly-extended
store. -/
def readPIDSettings (st : Store) (defaults : PIDSettings) : PIDSettings × Store :=
  let (pint, st1) := st.readU16 "kP" (pidCoeffToU16 defaults.mashkP)
  let (iint, st2) := st1.readU16 "kI" (pidCoeffToU16 defaults.mashkI)
  let (dint, st3) := st2.readU16 "kD" (pidCoeffToU16 defaults.mashkD)
  let (bpint, st4) := st3.readU16 "boilkP" (pidCoeffToU16 defaults.boilkP)
  let (biint, st5) := st4.readU16 "boilkI" (pidCoeffToU16 defaults.boilkI)
  let (bdint, st6) := st5.readU16 "boilkD" (pidCoeffToU16 defaults.boilkD)
  (⟨(pint : ℚ) / 10, (iint : ℚ) / 10, (dint : ℚ) / 10,
    (bpint : ℚ) / 10, (biint : ℚ) / 10, (bdint : ℚ) / 10⟩, st6)

/-! ## Heaters and the PID-cycle wattage allocation (C2, C3)

`BrewEngine::pidLoop`, lines 3700-3833. -/

/-- A heater as used by the PID loop: rated wattage, the mash/boil enablement
flags and the `enabled` flag the loop derives from them.  The list order is
the preference order (the engine keeps the list sorted by preference). -/
structure Heater where
  watt : ℤ
  useForMash : Bool
  useForBoil : Bool
  enabled : Bool
  deriving DecidableEq

/-- Enablement derived at the start of `pidLoop`: `useForBoil` on a boil run,
`useForMash` otherwise. -/
def heaterEnabledFor (boilRun : Bool) (h : Heater) : Bool :=
  if boilRun then h.useForBoil else h.useForMash

/-- `totalWattage`: sum of the rated watts of the heaters enabled for this
run. -/
def totalWattage (boilRun : Bool) (heaters : List Heater) : ℤ :=
  (heaters.filter (heaterEnabledFor boilRun)).foldl (fun acc h => acc + h.watt) 0

/-- `int outputWatt = (totalWattage / 100) * outputPercent;` — note the
integer division happens before the multiplication. -/
def outputWattOf (totalWatt : ℤ) (outputPercent : ℤ) : ℤ :=
  totalWatt / 100 * outputPercent

/-- The burn-time allocation loop of `pidLoop` (lines 3756-3782): walk the
heaters in preference order; a disabled heater keeps burn time 0; if the
remaining wattage has gone negative the loop breaks (all remaining stay 0);
a heater rated above the remaining wattage receives
`(int)(((double)outputWatt / (double)heater->watt) * 100)` percent and the
loop breaks; otherwise the heater takes its full rating (100 percent) and the
remainder carries on.  Returns the per-heater `burnTime` percentages in list
order. -/
def allocBurnTimes : List Heater → ℤ → List ℤ
  | [], _ => []
  | h :: hs, outputWatt =>
    if h.enabled = false then
      0 :: allocBurnTimes hs outputWatt
    else if outputWatt < 0 then
      0 :: hs.map (fun _ => 0)
    else if outputWatt < h.watt then
      ⌊(outputWatt : ℚ) / (h.watt : ℚ) * 100⌋ :: hs.map (fun _ => 0)
    else
      100 :: allocBurnTimes hs (outputWatt - h.watt)

/-- Greedy wattage distribution as the specification words it: each enabled
heater takes `min(heater.watt, remaining)`, the remainder goes to the next.
This is the comparison point for the refinement claim C2; it is written from
the spec sentence, not from the source. -/
def specGreedyAlloc : List Heater → ℤ → List ℤ
  | [], _ => []
  | h :: hs, remaining =>
    if h.enabled = false then
      0 :: specGreedyAlloc hs remaining
    else
      let a := min h.watt remaining
      a :: specGreedyAlloc hs (remaining - a)

/-- The spec formula for the wattage to distribute: `totalWatts · d / 100`. -/
def specOutputWatt (totalWatt : ℤ) (d : ℤ) : ℤ :=
  totalWatt * d / 100

/-- `burnUntil` for one heater in the per-second PWM subdivision
(lines 3799-3804): `(int)(((double)burnTime / 100) * pidLoopTime)` when the
burn time is positive, 0 otherwise. -/
def burnUntil (burnTime : ℤ) (pidLoopTime : ℤ) : ℤ :=
  if 0 < burnTime then ⌊(burnTime : ℚ) / 100 * (pidLoopTime : ℚ)⌋ else 0

/-- Whether a heater's `burn` flag is set during second `i` (0-indexed) of the
PID cycle: `burnUntil > i` (line 3806). -/
def burnAt (burnTime : ℤ) (pidLoopTime : ℤ) (i : ℤ) : Bool :=
  decide (i < burnUntil burnTime pidLoopTime)

/-- Number of seconds of one `pidLoopTime`-second cycle during which the
heater's burn flag is set. -/
def onSeconds (burnTime : ℤ) (pidLoopTime : ℕ) : ℕ :=
  ((List.range pidLoopTime).filter
    (fun i : ℕ => burnAt burnTime (pidLoopTime : ℤ) (i : ℤ))).length

/-- What claim C3 asserts the on-time is: `round(burnTime/100 · pidLoopTime)`
seconds, with `round` the usual round-half-up. -/
def specRoundOnSeconds (burnTime : ℤ) (pidLoopTime : ℕ) : ℤ :=
  round ((burnTime : ℚ) / 100 * (pidLoopTime : ℚ))

/-! ## Schedule model and the schedule compiler (C1)

`BrewEngine::loadSchedule`, lines 2891-3083.  Times are `ℤ` seconds relative
to the anchor step, which the source stamps with `system_clock::now()`. -/

/-- A mash step as the compiler consumes it: `stepTime` ramp minutes,
`time` hold minutes, integer target temperature and the two flags.
(The source's `index` and `name` fields play no role in compilation.) -/
structure MashStep where
  stepTime : ℤ
  time : ℤ
  temperature : ℤ
  extendStepTimeIfNeeded : Bool
  allowBoost : Bool
  deriving DecidableEq

/-- A schedule notification before compilation: minutes from the start of the
schedule.  (`name`, `message` and the buzzer flag do not affect any time.) -/
structure SchedNotification where
  timeFromStart : ℤ
  deriving DecidableEq

/-- A mash schedule. -/
structure MashSchedule where
  name : String
  boil : Bool
  steps : List MashStep
  notifications : List SchedNotification
  deriving DecidableEq

/-- A compiled execution step: absolute time (seconds from the anchor),
target temperature, and the extend/boost flags.  Fields the source leaves at
their defaults (`allowBoost` on the anchor, direct and hold steps) are
`false`. -/
structure ExecutionStep where
  time : ℤ
  temperature : ℚ
  extendIfNeeded : Bool
  allowBoost : Bool
  deriving DecidableEq

/-- A compiled notification: shifted display minutes and the absolute time
point. -/
structure CompiledNotification where
  timeFromStart : ℤ
  timePoint : ℤ
  deriving DecidableEq

/-- The sub-step emission loop of `loadSchedule` (lines 2970-3013) for the
indices `j` before the last one: starting at index `j` with `n` indices left
before the last sub-step, emit sub-step `j` (time `prevTime + (j+1)·stepInterval`,
temperature `prevTemp + diff·(j+1)`) only when its temperature differs from
the previously emitted one (`prevStepTemp`, initially 0) by more than one
degree.  The last sub-step (index `k-1`) is handled by the caller because the
source always inserts it. -/
def rampMiddle (stepInterval prevTime : ℤ) (prevTemp diff : ℚ) (boost : Bool) :
    ℕ → ℕ → ℚ → List ExecutionStep
  | _, 0, _ => []
  | j, n + 1, prevStepTemp =>
    let temp := prevTemp + diff * ((j : ℚ) + 1)
    if 1 < |temp - prevStepTemp| then
      ⟨prevTime + ((j : ℤ) + 1) * stepInterval, temp, false, boost⟩ ::
        rampMiddle stepInterval prevTime prevTemp diff boost (j + 1) n temp
    else
      rampMiddle stepInterval prevTime prevTemp diff boost (j + 1) n prevStepTemp

/-- Accumulator of the compilation loop: the end time and temperature of the
last emitted point, the accumulated notification shift in seconds, and the
emitted steps so far. -/
structure LoadState where
  prevTime : ℤ
  prevTemp : ℚ
  extendNotifications : ℤ
  steps : List ExecutionStep

/-- One iteration of the step loop of `loadSchedule` (lines 2929-3058).
A step with a positive ramp time or the extend flag is expanded into
sub-steps (a zero ramp with extend is promoted to one minute, accumulating 60
seconds of notification shift; boost steps force a single sub-step); a step
with zero ramp and no extend is emitted 10 seconds ahead; either way a hold
point follows after the step's hold minutes. -/
def compileStep (stepInterval : ℤ) (boostModeUntil : ℕ) (st : LoadState) (step : MashStep) :
    LoadState :=
  if 0 < step.stepTime ∨ step.extendStepTimeIfNeeded then
    let stepTime : ℤ := if step.stepTime = 0 then 1 else step.stepTime
    let shift : ℤ := if step.stepTime = 0 then 60 else 0
    let secondsInStep : ℤ := 60 * stepTime
    let stepEnd : ℤ := st.prevTime + secondsInStep
    let boost : Bool := step.allowBoost && decide (0 < boostModeUntil)
    let k : ℤ := if boost then 1 else max 1 (secondsInStep / stepInterval - 1)
    let diff : ℚ := ((step.temperature : ℚ) - st.prevTemp) / (k : ℚ)
    let lastSub : ExecutionStep :=
      ⟨st.prevTime + k * stepInterval, st.prevTemp + diff * (k : ℚ),
        step.extendStepTimeIfNeeded, boost⟩
    let subs : List ExecutionStep :=
      rampMiddle stepInterval st.prevTime st.prevTemp diff boost 0 (k.toNat - 1) 0 ++ [lastSub]
    let holdEnd : ℤ := stepEnd + 60 * step.time
    { prevTime := holdEnd
      prevTemp := (step.temperature : ℚ)
      extendNotifications := st.extendNotifications + shift
      steps := st.steps ++ subs ++ [⟨holdEnd, (step.temperature : ℚ), false, false⟩] }
  else
    let stepEnd : ℤ := st.prevTime + 10
    let holdEnd : ℤ := stepEnd + 60 * step.time
    { prevTime := holdEnd
      prevTemp := (step.temperature : ℚ)
      extendNotifications := st.extendNotifications
      steps := st.steps ++
        [⟨stepEnd, (step.temperature : ℚ), step.extendStepTimeIfNeeded, false⟩,
         ⟨holdEnd, (step.temperature : ℚ), false, false⟩] }

/-- The full step-compilation fold of `loadSchedule`: the anchor step at the
current time and temperature, then every mash step in order. -/
def loadScheduleSteps (stepInterval : ℤ) (boostModeUntil : ℕ) (startTemp : ℚ)
    (steps : List MashStep) : LoadState :=
  steps.foldl (compileStep stepInterval boostModeUntil)
    ⟨0, startTemp, 0, [⟨0, startTemp, false, false⟩]⟩

/-- Notification compilation (lines 3067-3079): absolute time is the anchor
time plus the minutes from start plus the accumulated shift; the displayed
minutes gain `shift / 60`. -/
def compileNotifications (shift : ℤ) (ns : List SchedNotification) :
    List CompiledNotification :=
  ns.map fun n => ⟨n.timeFromStart + shift / 60, 60 * n.timeFromStart + shift⟩

/-- `BrewEngine::loadSchedule` for a schedule found in the collection: the
compiled execution steps and the compiled notifications. -/
def loadSchedule (stepInterval : ℤ) (boostModeUntil : ℕ) (startTemp : ℚ)
    (sched : MashSchedule) : List ExecutionStep × List CompiledNotification :=
  let st := loadScheduleSteps stepInterval boostModeUntil startTemp sched.steps
  (st.steps, compileNotifications st.extendNotifications sched.notifications)

/-! ## The read loop's control average (C5)

`BrewEngine::readLoop`, lines 3258-3627.  Per tick the loop sums the
converted, compensated temperatures of the successfully read sensors that are
marked `useForControl` and divides by their count; with zero contributors the
C++ expression `sum / nrOfSensors` is `0.0f / 0`, i.e. NaN, modelled as
`none`. -/

/-- One sensor's outcome on a read-loop tick: whether the probe read
successfully, whether it is used for control, the measured value in the
configured scale, and the two calibration fields. -/
structure SensorRead where
  ok : Bool
  useForControl : Bool
  measured : ℚ
  compensateAbsolute : ℚ
  compensateRelative : ℚ
  deriving DecidableEq

/-- Compensation applied after conversion (lines 3592-3600): add the absolute
offset when non-zero, multiply by the relative factor when it is neither 0
nor 1. -/
def effectiveTemp (s : SensorRead) : ℚ :=
  let t := s.measured
  let t := if s.compensateAbsolute ≠ 0 then t + s.compensateAbsolute else t
  if s.compensateRelative ≠ 0 ∧ s.compensateRelative ≠ 1 then t * s.compensateRelative else t

/-- The control average written to `instance->temperature`: the mean of the
contributing sensors, NaN (`none`) when no sensor contributes. -/
def controlAverage (reads : List SensorRead) : Option ℚ :=
  let contrib := (reads.filter fun s => s.ok && s.useForControl).map effectiveTemp
  if contrib.length = 0 then none else some (contrib.sum / (contrib.length : ℚ))

/-! ## The control loop (C4, C5)

`BrewEngine::controlLoop`, lines 3878-4045.  One loop iteration is modelled
as a pure function on the loop's state; the buzzer task spawn is abstracted
to marking the notification done. -/

/-- Boost status of the engine. -/
inductive BoostStatus where
  | off
  | boost
  | rest
  deriving DecidableEq

/-- The boost threshold computed at line 3926:
`(uint)((nextStep->temperature / 100) * (float)instance->boostModeUntil)` —
the cast to `uint` truncates the product. -/
def boostThresholdCalc (stepTemp : ℚ) (boostModeUntil : ℕ) : ℕ :=
  (Int.toNat ⌊stepTemp / 100 * (boostModeUntil : ℚ)⌋)

/-- The threshold as claim C4 words it: `step.target · boostBaselinePercent /
100`, an exact rational.  Comparison point for the claim; written from the
spec sentence. -/
def specBoostThreshold (stepTemp : ℚ) (boostModeUntil : ℕ) : ℚ :=
  stepTemp * (boostModeUntil : ℚ) / 100

/-- A compiled notification as the running engine holds it: absolute time
point and the `done` flag. -/
structure RunNotification where
  timePoint : ℤ
  done : Bool
  deriving DecidableEq

/-- State touched by one control-loop iteration: the engine fields the loop
reads and writes plus its locals (`prevTemperature`, `boostUntil`,
`resetPIDNextStep`). -/
structure CtrlState where
  controlRun : Bool
  statusText : String
  currentMashStep : ℕ
  executionSteps : List ExecutionStep
  notifications : List RunNotification
  inOverTime : Bool
  boostStatus : BoostStatus
  overrideTargetTemperature : Option ℚ
  targetTemperature : ℚ
  temperature : Option ℚ
  prevTemperature : Option ℚ
  boostUntil : ℕ
  resetPIDNextStep : Bool
  resetPitTime : Bool
  deriving DecidableEq

/-- `BrewEngine::stop` (lines 3136-3142) acting on the control state. -/
def ctrlStop (s : CtrlState) : CtrlState :=
  { s with controlRun := false, boostStatus := .off, inOverTime := false,
           statusText := "Idle" }

/-- The boost block (lines 3921-3953): computes/caches the threshold and
steps the boost state machine.  Returns the updated status, cached threshold
and `resetPitTime` flag. -/
def boostBlock (boostModeUntil : ℕ) (allowBoost : Bool) (stepTemp : ℚ)
    (temperature prevTemperature : Option ℚ) (status : BoostStatus)
    (boostUntil : ℕ) (resetPitTime : Bool) : BoostStatus × ℕ × Bool :=
  if allowBoost then
    let bu := if boostUntil = 0 then boostThresholdCalc stepTemp boostModeUntil else boostUntil
    if status = .off ∧ nanLt temperature (bu : ℚ) then
      (.boost, bu, resetPitTime)
    else if status = .boost ∧ nanGe temperature (bu : ℚ) then
      (.rest, bu, resetPitTime)
    else if status = .rest ∧ nanLtNan temperature prevTemperature then
      (.off, bu, true)
    else
      (status, bu, resetPitTime)
  else
    (status, boostUntil, resetPitTime)

/-- `recalculateScheduleAfterOverTime` (lines 3085-3134): shift every
execution step from the current one onward, and every notification, by the
elapsed excess `now - plannedEnd`.  (The source iterates the step map from
the current key; since compiled steps are time-ordered by index, shifting
from the current index onward is the same map update.) -/
def recalcAfterOverTime (now : ℤ) (s : CtrlState) : CtrlState :=
  match s.executionSteps.get? s.currentMashStep with
  | none => ctrlStop s
  | some cur =>
    let extra := now - cur.time
    { s with
      executionSteps :=
        s.executionSteps.mapIdx fun i e =>
          if s.currentMashStep ≤ i then { e with time := e.time + extra } else e,
      notifications := s.notifications.map fun n => { n with timePoint := n.timePoint + extra } }

/-- The notification block (lines 4006-4029): when not in overtime, fire the
first not-yet-done notification once `now` has passed its time point. -/
def fireNotifications (now : ℤ) (s : CtrlState) : CtrlState :=
  if s.inOverTime then s
  else
    match s.notifications.findIdx? (fun n => n.done = false) with
    | none => s
    | some i =>
      match s.notifications.get? i with
      | none => s
      | some first =>
        if first.timePoint < now then
          { s with notifications := s.notifications.set i { first with done := true } }
        else s

/-- One iteration of the control loop while `run ∧ controlRun` holds
(lines 3892-4041), for the modelled fields.  `tempMargin` and
`boostModeUntil` are configuration.  The source indexes the execution-step
map with `.at()` after checking `size() >= currentMashStep`; at
`currentMashStep = size()` the lookup throws, which the model leaves as the
unchanged state (no claim reaches that state). -/
def controlTick (tempMargin : ℚ) (boostModeUntil : ℕ) (now : ℤ) (s : CtrlState) : CtrlState :=
  let s' :=
    if hlt : s.currentMashStep < s.executionSteps.length then
      let nextStep := s.executionSteps.get ⟨s.currentMashStep, hlt⟩
      -- set target when not overridden
      let target : ℚ :=
        match s.overrideTargetTemperature with
        | some v => v
        | none => nextStep.temperature
      let s := { s with targetTemperature := target }
      let secondsToGo : ℤ := if now < nextStep.time then nextStep.time - now else 0
      -- boost block
      let (bst, bu, rpt) :=
        boostBlock boostModeUntil nextStep.allowBoost nextStep.temperature
          s.temperature s.prevTemperature s.boostStatus s.boostUntil s.resetPitTime
      let s := { s with boostStatus := bst, boostUntil := bu, resetPitTime := rpt }
      -- step advance / overtime
      let (s, gotoNextStep) :=
        if secondsToGo < 1 then
          if nextStep.extendIfNeeded = true ∧ s.inOverTime = false ∧
              nanSubGe nextStep.temperature s.temperature tempMargin then
            ({ s with inOverTime := true }, false)
          else if s.inOverTime = true ∧
              nanSubLe nextStep.temperature s.temperature tempMargin then
            (recalcAfterOverTime now { s with inOverTime := false }, true)
          else if s.inOverTime = false then
            ({ s with overrideTargetTemperature := none }, true)
          else
            (s, false)
        else (s, false)
      -- delayed PID reset
      let s :=
        if s.resetPIDNextStep then
          { s with resetPIDNextStep := false, resetPitTime := true }
        else s
      let s :=
        if gotoNextStep then
          { s with currentMashStep := s.currentMashStep + 1, boostStatus := .off,
                   resetPIDNextStep := true }
        else s
      fireNotifications now s
    else if s.executionSteps.length < s.currentMashStep then
      -- last step done: the loop stops the engine
      ctrlStop s
    else
      s
  { s' with prevTemperature := s'.temperature }

/-- The PID loop's override of the computed duty (lines 3729-3744): manual
override wins, then Boost forces 100, Rest forces 0. -/
def appliedOutputPercent (manualOverrideOutput : Option ℤ) (status : BoostStatus)
    (pidOutput : ℤ) : ℤ :=
  match manualOverrideOutput with
  | some v => v
  | none =>
    match status with
    | .boost => 100
    | .rest => 0
    | .off => pidOutput

/-! ## The statistics manager (C10)

`statistics-manager.cpp`.  `time(nullptr)` is passed in as `now`. -/

/-- In-memory state of the statistics manager. -/
structure StatsState where
  sessionActive : Bool
  currentSessionId : ℕ
  sessionStartTime : ℤ
  currentSessionData : List TempDataPoint
  currentScheduleName : String
  deriving DecidableEq

/-- `StatisticsManager::getNextSessionId` (lines 42-47): read the persisted
next id (default 1), persist its successor as a `uint16_t` — which wraps at
65535 — and hand out the value read. -/
def getNextSessionId (st : Store) : ℕ × Store :=
  let (nextId, st1) := st.readU16 "stat_next_id" 1
  (nextId, st1.write "stat_next_id" (.u16 ((nextId + 1) % 65536)))

/-- `calculateSessionStats` (lines 134-156): average (float mean), minimum
and maximum of the 8-bit temperature samples; zeros for an empty series. -/
def calculateSessionStats (data : List TempDataPoint) : ℚ × ℤ × ℤ :=
  match data with
  | [] => (0, 0, 0)
  | d :: ds =>
    let sum : ℚ := (data.map fun p => (p.avgTemp : ℚ)).sum
    let minT := ds.foldl (fun acc p => min acc p.avgTemp) d.avgTemp
    let maxT := ds.foldl (fun acc p => max acc p.avgTemp) d.avgTemp
    (sum / (data.length : ℚ), minT, maxT)

/-- `GetSessionList` (lines 233-263): walk the candidate ids below the
persisted next id, keep every stored session record, and sort newest first.
(The source's `std::sort` with a strict comparator leaves the order of equal
keys unspecified; `mergeSort` fixes one consistent order.) -/
def getSessionList (st : Store) : List BrewSession × Store :=
  let (sessionCount, st1) := st.readU16 "stat_count" 0
  if sessionCount = 0 then ([], st1)
  else
    let (maxSessionId, st2) := st1.readU16 "stat_next_id" 1
    let sessions := (List.range maxSessionId).filterMap fun id =>
      if 1 ≤ id then
        match st2 ("session_" ++ toString id) with
        | some (.blobSession b) => some b
        | _ => none
      else none
    (sessions.mergeSort (fun a b => decide (b.startTime ≤ a.startTime)), st2)

/-- `cleanupOldSessions` (lines 194-231): when the stored session count
exceeds the cap, overwrite the metadata and data blobs of the oldest sessions
(by start time) with empty byte blobs and reset the count to the cap. -/
def cleanupOldSessions (st : Store) : Store :=
  let (maxSessions, st1) := st.readU8 "stat_max" 10
  let (sessionCount, st2) := st1.readU16 "stat_count" 0
  if sessionCount ≤ maxSessions then st2
  else
    let (sessions, st3) := getSessionList st2
    let ascending := sessions.mergeSort (fun a b => decide (a.startTime ≤ b.startTime))
    let doomed := ascending.take (sessionCount - maxSessions)
    let st4 := doomed.foldl
      (fun acc s =>
        (acc.write ("session_" ++ toString s.sessionId) (.bytes [])).write
          ("data_" ++ toString s.sessionId) (.bytes []))
      st3
    st4.write "stat_count" (.u16 (maxSessions % 65536))

/-- `StatisticsManager::EndSession` (lines 65-115): a no-op without an active
session; otherwise persist the session record (`completed = true`) and its
sample blob, bump the session count, run the cap cleanup, and clear the
in-memory session. -/
def endSession (now : ℤ) (ss : StatsState) (st : Store) : StatsState × Store :=
  if ss.sessionActive = false then (ss, st)
  else
    let stats := calculateSessionStats ss.currentSessionData
    let record : BrewSession :=
      { sessionId := ss.currentSessionId
        startTime := ss.sessionStartTime
        endTime := now
        scheduleName := (ss.currentScheduleName.take 31)
        dataPoints := ss.currentSessionData.length % 65536
        avgTemperature := stats.1
        maxTemperature := stats.2.2
        minTemperature := stats.2.1
        totalDuration := now - ss.sessionStartTime
        completed := true }
    let st1 := st.write ("session_" ++ toString ss.currentSessionId) (.blobSession record)
    let st2 :=
      if ss.currentSessionData = [] then st1
      else st1.write ("data_" ++ toString ss.currentSessionId)
        (.blobPoints ss.currentSessionData)
    let (sessionCount, st3) := st2.readU16 "stat_count" 0
    let st4 := st3.write "stat_count" (.u16 ((sessionCount + 1) % 65536))
    let st5 := cleanupOldSessions st4
    ({ sessionActive := false
       currentSessionId := 0
       sessionStartTime := ss.sessionStartTime
       currentSessionData := []
       currentScheduleName := "" }, st5)

/-- `StatisticsManager::StartSession` (lines 49-63): end any active session
first, then begin a new one under the next session id. -/
def startSession (now : ℤ) (scheduleName : String) (ss : StatsState) (st : Store) :
    StatsState × Store :=
  let (_, st1) := if ss.sessionActive then endSession now ss st else (ss, st)
  let (id, st2) := getNextSessionId st1
  ({ sessionActive := true
     currentSessionId := id
     sessionStartTime := now
     currentSessionData := []
     currentScheduleName := scheduleName }, st2)

/-- `StatisticsManager::AddDataPoint` (lines 117-132): append a sample when a
session is active. -/
def addDataPoint (p : TempDataPoint) (ss : StatsState) : StatsState :=
  if ss.sessionActive then { ss with currentSessionData := ss.currentSessionData ++ [p] }
  else ss

/-! ## Engine state, start and stop (C6, C7, C8)

The engine fields the settled claims observe.  Collections no claim touches
(sensors, heater configuration, stir state, transports) stay outside the
model; the command handlers that only mutate those act as the identity here,
exactly as the source acts on these fields. -/

/-- The configured temperature scale. -/
inductive TempScale where
  | celsius
  | fahrenheit
  deriving DecidableEq

/-- The modelled engine fields. -/
structure EngineState where
  run : Bool
  controlRun : Bool
  boilRun : Bool
  inOverTime : Bool
  boostStatus : BoostStatus
  statusText : String
  selectedMashScheduleName : String
  mashSchedules : List (String × MashSchedule)
  executionSteps : List ExecutionStep
  notifications : List RunNotification
  currentMashStep : ℕ
  currentExecutionStep : ℕ
  runningVersion : ℕ
  temperature : Option ℚ
  targetTemperature : ℚ
  overrideTargetTemperature : Option ℚ
  manualOverrideOutput : Option ℤ
  pidOutput : ℤ
  resetPitTime : Bool
  temperatureScale : TempScale
  tempLog : List (ℤ × ℤ)
  stepInterval : ℕ
  boostModeUntil : ℕ
  pidLoopTime : ℕ
  deriving DecidableEq

/-- Schedule lookup in the `name → schedule` map. -/
def lookupSchedule (l : List (String × MashSchedule)) (n : String) :
    Option MashSchedule :=
  (l.find? fun p => p.1 = n).map Prod.snd

/-- `BrewEngine::loadSchedule` at engine level: look up the selected
schedule; when absent log and return unchanged; otherwise install the
compiled steps and notifications and bump the running version.  The compiled
times are seconds relative to the anchor (`now` of the call).  A NaN current
temperature would make the source compile NaN targets; the engine wrapper
maps that case to temperature 0, which no settled claim exercises. -/
def engineLoadSchedule (s : EngineState) : EngineState :=
  match lookupSchedule s.mashSchedules s.selectedMashScheduleName with
  | none => s
  | some sched =>
    let (steps, notifs) :=
      loadSchedule (s.stepInterval : ℤ) s.boostModeUntil (s.temperature.getD 0) sched
    { s with
      executionSteps := steps
      notifications := notifs.map fun n => ⟨n.timePoint, false⟩
      currentExecutionStep := 0
      boilRun := sched.boil
      runningVersion := s.runningVersion + 1 }

/-- `BrewEngine::start` (lines 2842-2889): entirely guarded by
`!controlRun`.  When idle it arms the run, resets override/boost/overtime,
clears the temperature log and compiled steps, loads the selected schedule
(or derives the boil flag from the target temperature when no schedule is
selected) and sets the status text.  The task spawns have no modelled
effect. -/
def engineStart (s : EngineState) : EngineState :=
  if s.controlRun = false then
    let s1 := { s with
      controlRun := true
      inOverTime := false
      boostStatus := .off
      overrideTargetTemperature := none
      tempLog := []
      executionSteps := ([] : List ExecutionStep) }
    let s2 :=
      if s1.selectedMashScheduleName ≠ "" then
        let s' := engineLoadSchedule s1
        { s' with currentMashStep := 1 }
      else
        { s1 with
          boilRun :=
            decide ((s1.temperatureScale = .celsius ∧ 100 ≤ s1.targetTemperature) ∨
              (s1.temperatureScale = .fahrenheit ∧ 212 ≤ s1.targetTemperature)) }
    { s2 with statusText := "Running" }
  else s

/-- `BrewEngine::stop` (lines 3136-3142). -/
def engineStop (s : EngineState) : EngineState :=
  { s with controlRun := false, boostStatus := .off, inOverTime := false,
           statusText := "Idle" }

/-! ## The command dispatcher (C6, C7, C8, C10)

`BrewEngine::processCommand`, lines 4088-4922.  A request carries a command
string and a `data` object; the response carries `success` and an optional
`message` (the `data` payload of the response holds only read-out values and
is not modelled). -/

/-- A JSON field of the request's `data` object as the handlers inspect it
(`is_null` / `is_number` / string reads). -/
inductive JField where
  | absent
  | null
  | num (q : ℚ)
  | str (s : String)
  | other
  deriving DecidableEq

/-- `is_null` as nlohmann json reports it (an absent key of an object read
through `operator[]` yields a null value). -/
def JField.isNull : JField → Bool
  | .absent => true
  | .null => true
  | _ => false

/-- `is_number`. -/
def JField.isNumber : JField → Bool
  | .num _ => true
  | _ => false

/-- A request envelope: the command plus the typed `data` fields the modelled
handlers inspect.  `schedule` carries the decoded schedule of
`SaveMashSchedule` / `SetMashSchedule`, `name` the target of
`DeleteMashSchedule`. -/
structure Request where
  command : String
  targetTemp : JField
  output : JField
  selectedMashSchedule : JField
  name : JField
  schedule : Option MashSchedule
  deriving DecidableEq

/-- A response envelope (`success`, optional `message`; the `data` payload is
not modelled). -/
structure Response where
  success : Bool
  message : Option String
  deriving DecidableEq

/-- The combined state the dispatcher acts on. -/
structure SysState where
  eng : EngineState
  stats : StatsState
  store : Store

/-- `insert_or_assign` on the schedule map. -/
def insertSchedule (l : List (String × MashSchedule)) (sched : MashSchedule) :
    List (String × MashSchedule) :=
  if l.any (fun p => p.1 = sched.name) then
    l.map fun p => if p.1 = sched.name then (sched.name, sched) else p
  else l ++ [(sched.name, sched)]

/-- `map::erase` by name. -/
def eraseSchedule (l : List (String × MashSchedule)) (n : String) :
    List (String × MashSchedule) :=
  l.filter fun p => p.1 ≠ n

/-- `BrewEngine::processCommand`.  Handlers that touch only unmodelled
collections or hardware (stir, sensors, heaters, Wi-Fi, transports,
lifecycle tasks) act as the identity on the modelled state, exactly as the
source acts on the modelled fields; their constant messages are kept where
the source's are state-independent.  Crucially the source's `if/else if`
chain has no final `else`: a command matching no branch falls through with
the initial `success = true`, empty message and no state change. -/
def processCommand (now : ℤ) (sys : SysState) (req : Request) : SysState × Response :=
  if req.command = "Data" then
    (sys, ⟨true, none⟩)
  else if req.command = "GetRunningSchedule" then
    (sys, ⟨true, none⟩)
  else if req.command = "SetTemp" then
    if req.targetTemp.isNull then
      let e1 := { sys.eng with overrideTargetTemperature := none }
      let e2 :=
        if e1.selectedMashScheduleName = "" then { e1 with targetTemperature := 0 } else e1
      ({ sys with eng := e2 }, ⟨true, none⟩)
    else
      match req.targetTemp with
      | .num v =>
        let e1 := { sys.eng with overrideTargetTemperature := some v }
        let e2 :=
          if e1.selectedMashScheduleName = "" then { e1 with targetTemperature := v } else e1
        ({ sys with eng := e2 }, ⟨true, none⟩)
      | _ =>
        ({ sys with eng := { sys.eng with overrideTargetTemperature := none } },
         ⟨false, some "Incorrect data, integer or float expected!"⟩)
  else if req.command = "SetOverrideOutput" then
    let e1 :=
      if req.output.isNull = false ∧ req.output.isNumber then
        { sys.eng with
          manualOverrideOutput :=
            some (match req.output with | .num v => ⌊v⌋ | _ => 0) }
      else
        { sys.eng with manualOverrideOutput := none }
    ({ sys with eng := { e1 with resetPitTime := true } }, ⟨true, none⟩)
  else if req.command = "Start" then
    let e1 :=
      if req.selectedMashSchedule.isNull then
        { sys.eng with selectedMashScheduleName := "" }
      else
        { sys.eng with
          selectedMashScheduleName :=
            (match req.selectedMashSchedule with | .str s => s | _ => "") }
    let e2 := engineStart e1
    let (stats', store') := startSession now e2.selectedMashScheduleName sys.stats sys.store
    (⟨e2, stats', store'⟩, ⟨true, none⟩)
  else if req.command = "StartStir" then
    (sys, ⟨true, none⟩)
  else if req.command = "Stop" then
    let e1 := engineStop sys.eng
    let (stats', store') := endSession now sys.stats sys.store
    (⟨e1, stats', store'⟩, ⟨true, none⟩)
  else if req.command = "StopStir" then
    (sys, ⟨true, none⟩)
  else if req.command = "GetMashSchedules" then
    (sys, ⟨true, none⟩)
  else if req.command = "SaveMashSchedule" then
    match req.schedule with
    | some sched =>
      ({ sys with eng := { sys.eng with
          mashSchedules := insertSchedule sys.eng.mashSchedules sched } }, ⟨true, none⟩)
    | none => (sys, ⟨true, none⟩)
  else if req.command = "SetMashSchedule" then
    match req.schedule with
    | some sched =>
      ({ sys with eng := { sys.eng with
          mashSchedules := insertSchedule sys.eng.mashSchedules sched } }, ⟨true, none⟩)
    | none => (sys, ⟨true, none⟩)
  else if req.command = "DeleteMashSchedule" then
    let deleteName := match req.name with | .str s => s | _ => ""
    if (lookupSchedule sys.eng.mashSchedules deleteName).isNone then
      (sys, ⟨false, some ("Schedule with name: " ++ deleteName ++ " not found")⟩)
    else
      ({ sys with eng := { sys.eng with
          mashSchedules := eraseSchedule sys.eng.mashSchedules deleteName } }, ⟨true, none⟩)
  else if req.command = "GetPIDSettings" then
    (sys, ⟨true, none⟩)
  else if req.command = "SavePIDSettings" then
    -- coefficient fields live outside `EngineState`; the handler persists
    -- them through `savePIDSettings`, modelled on the store only
    (sys, ⟨true, none⟩)
  else if req.command = "GetTempSettings" then
    (sys, ⟨true, none⟩)
  else if req.command = "SaveTempSettings" then
    (sys, ⟨true, none⟩)
  else if req.command = "DetectTempSensors" then
    (sys, ⟨true, none⟩)
  else if req.command = "AddRtdSensor" then
    (sys, ⟨true, none⟩)
  else if req.command = "AddNtcSensor" then
    (sys, ⟨true, none⟩)
  else if req.command = "GetHeaterSettings" then
    (sys, ⟨true, none⟩)
  else if req.command = "SaveHeaterSettings" then
    if sys.eng.controlRun then
      (sys, ⟨false, some "You cannot save heater settings while running!"⟩)
    else
      (sys, ⟨true, none⟩)
  else if req.command = "GetWifiSettings" then
    (sys, ⟨true, none⟩)
  else if req.command = "SaveWifiSettings" then
    (sys, ⟨true, some "Please restart device for changes to have effect!"⟩)
  else if req.command = "ScanWifi" then
    (sys, ⟨true, none⟩)
  else if req.command = "GetSystemSettings" then
    (sys, ⟨true, none⟩)
  else if req.command = "SaveSystemSettings" then
    (sys, ⟨true, some "Please restart device for changes to have effect!"⟩)
  else if req.command = "TestFirebase" then
    (sys, ⟨true, none⟩)
  else if req.command = "Reboot" then
    (sys, ⟨true, none⟩)
  else if req.command = "FactoryReset" then
    ({ sys with store := fun _ => none },
     ⟨true, some "Device will restart shortly, reconnect to factory wifi settings to continue!"⟩)
  else if req.command = "BootIntoRecovery" then
    (sys, ⟨true, none⟩)
  else if req.command = "GetStatistics" then
    (sys, ⟨true, none⟩)
  else if req.command = "GetSessionData" then
    (sys, ⟨true, none⟩)
  else if req.command = "ExportSession" then
    (sys, ⟨true, none⟩)
  else if req.command = "SetStatisticsConfig" then
    (sys, ⟨true, some "Statistics configuration updated"⟩)
  else
    -- no final else in the source: fall through unchanged with success=true
    (sys, ⟨true, none⟩)

/-- The enumerated command strings of the dispatcher chain, in source
order. -/
def knownCommands : List String :=
  ["Data", "GetRunningSchedule", "SetTemp", "SetOverrideOutput", "Start",
   "StartStir", "Stop", "StopStir", "GetMashSchedules", "SaveMashSchedule",
   "SetMashSchedule", "DeleteMashSchedule", "GetPIDSettings",
   "SavePIDSettings", "GetTempSettings", "SaveTempSettings",
   "DetectTempSensors", "AddRtdSensor", "AddNtcSensor", "GetHeaterSettings",
   "SaveHeaterSettings", "GetWifiSettings", "SaveWifiSettings", "ScanWifi",
   "GetSystemSettings", "SaveSystemSettings", "TestFirebase", "Reboot",
   "FactoryReset", "BootIntoRecovery", "GetStatistics", "GetSessionData",
   "ExportSession", "SetStatisticsConfig"]

/-! ## Concrete fixtures used by the witnesses and counterexamples -/

/-- The empty NVS namespace. -/
def emptyStore : Store := fun _ => none

/-- Sum of the rated watts of the heaters whose `enabled` flag is set. -/
def enabledWattSum (heaters : List Heater) : ℤ :=
  ((heaters.filter fun h => h.enabled).map Heater.watt).sum

/-- The two heaters of scenario S3: 2000 W and 1000 W, mash heaters, already
enabled for a mash run. -/
def s3heaters : List Heater :=
  [⟨2000, true, false, true⟩, ⟨1000, true, false, true⟩]

/-- An idle engine: not running, no overrides, consistent with the state
`stop` leaves behind. -/
def idleEngine : EngineState :=
  { run := true
    controlRun := false
    boilRun := false
    inOverTime := false
    boostStatus := .off
    statusText := "Idle"
    selectedMashScheduleName := ""
    mashSchedules := []
    executionSteps := []
    notifications := []
    currentMashStep := 0
    currentExecutionStep := 0
    runningVersion := 0
    temperature := some 20
    targetTemperature := 0
    overrideTargetTemperature := none
    manualOverrideOutput := none
    pidOutput := 0
    resetPitTime := false
    temperatureScale := .celsius
    tempLog := []
    stepInterval := 60
    boostModeUntil := 0
    pidLoopTime := 60 }

/-- A running engine on schedule "A". -/
def runningEngine : EngineState :=
  { idleEngine with
    controlRun := true
    statusText := "Running"
    selectedMashScheduleName := "A"
    currentMashStep := 1 }

/-- A statistics manager with no active session. -/
def idleStats : StatsState :=
  { sessionActive := false
    currentSessionId := 0
    sessionStartTime := 0
    currentSessionData := []
    currentScheduleName := "" }

/-- A statistics manager recording session 5 of schedule "A". -/
def activeStats : StatsState :=
  { sessionActive := true
    currentSessionId := 5
    sessionStartTime := 0
    currentSessionData := []
    currentScheduleName := "A" }

/-- An idle system. -/
def idleSys : SysState := ⟨idleEngine, idleStats, emptyStore⟩

/-- A running system: engine on schedule "A", session 5 active, the next
session id persisted as 7. -/
def runningSys : SysState :=
  ⟨runningEngine, activeStats, emptyStore.write "stat_next_id" (.u16 7)⟩

/-- A request whose fields are all absent. -/
def bareRequest (command : String) : Request :=
  ⟨command, .absent, .absent, .absent, .absent, none⟩

/-- A `SetTemp` request whose `targetTemp` is present but a string. -/
def badSetTempRequest : Request :=
  ⟨"SetTemp", .str "abc", .absent, .absent, .absent, none⟩

/-- A `Start` request selecting schedule "B". -/
def startRequestB : Request :=
  ⟨"Start", .absent, .absent, .str "B", .absent, none⟩

/-- Control-loop state at the end sub-step of an extend step whose target is
64 with a NaN process temperature. -/
def nanCtrlState : CtrlState :=
  { controlRun := true
    statusText := "Running"
    currentMashStep := 1
    executionSteps := [⟨0, 20, false, false⟩, ⟨60, 64, true, false⟩]
    notifications := []
    inOverTime := false
    boostStatus := .off
    overrideTargetTemperature := none
    targetTemperature := 64
    temperature := none
    prevTemperature := some 20
    boostUntil := 0
    resetPIDNextStep := false
    resetPitTime := false }

/-- The store of the session-id wrap counterexample: the persisted next id is
65535. -/
def wrapStore : Store := emptyStore.write "stat_next_id" (.u16 65535)

/-- An idle system whose manual target override is set to 50 °. -/
def overrideSys : SysState :=
  ⟨{ idleEngine with overrideTargetTemperature := some 50 }, idleStats, emptyStore⟩

/-! # Theorems -/

/-- A coefficient that is a non-negative multiple of 0.1 within the `uint16`
range survives the save-side conversion exactly. -/
theorem pidCoeffToU16_tenths (k : ℕ) (hk : k ≤ 65535) :
    pidCoeffToU16 ((k : ℚ) / 10) = k := by
  unfold pidCoeffToU16
  have h1 : ((k : ℚ) / 10) * 10 = (k : ℚ) := div_mul_cancel₀ _ (by norm_num)
  rw [h1, Int.floor_natCast]
  simp only [Int.toNat_natCast]
  exact Nat.mod_eq_of_lt (by omega)

/-- Claim C9: every PID coefficient that is a non-negative multiple of 0.1
not exceeding 6553.5 survives the `savePIDSettings` (store coefficient × 10
as a u16) / `readSettings` (stored value ÷ 10) round trip. -/
theorem pid_settings_roundtrip (st : Store) (d : PIDSettings) (plt si bmu : ℕ)
    (k1 k2 k3 k4 k5 k6 : ℕ) (h1 : k1 ≤ 65535) (h2 : k2 ≤ 65535) (h3 : k3 ≤ 65535)
    (h4 : k4 ≤ 65535) (h5 : k5 ≤ 65535) (h6 : k6 ≤ 65535) :
    (readPIDSettings
        (savePIDSettings st
          ⟨(k1 : ℚ) / 10, (k2 : ℚ) / 10, (k3 : ℚ) / 10,
           (k4 : ℚ) / 10, (k5 : ℚ) / 10, (k6 : ℚ) / 10⟩ plt si bmu) d).1
      = ⟨(k1 : ℚ) / 10, (k2 : ℚ) / 10, (k3 : ℚ) / 10,
         (k4 : ℚ) / 10, (k5 : ℚ) / 10, (k6 : ℚ) / 10⟩ := by
  simp only [readPIDSettings, savePIDSettings, Store.readU16, Store.write,
    String.reduceEq, reduceIte,
    pidCoeffToU16_tenths k1 h1, pidCoeffToU16_tenths k2 h2, pidCoeffToU16_tenths k3 h3,
    pidCoeffToU16_tenths k4 h4, pidCoeffToU16_tenths k5 h5, pidCoeffToU16_tenths k6 h6]

/-- Witness for C9: a concrete round trip through the store. -/
theorem pid_settings_roundtrip_witness :
    (123 : ℕ) ≤ 65535 ∧ (65535 : ℕ) ≤ 65535 ∧
    (readPIDSettings
        (savePIDSettings emptyStore
          ⟨(123 : ℚ) / 10, (45 : ℚ) / 10, (0 : ℚ) / 10,
           (65535 : ℚ) / 10, (7 : ℚ) / 10, (1 : ℚ) / 10⟩ 60 60 0)
        ⟨0, 0, 0, 0, 0, 0⟩).1
      = ⟨(123 : ℚ) / 10, (45 : ℚ) / 10, (0 : ℚ) / 10,
         (65535 : ℚ) / 10, (7 : ℚ) / 10, (1 : ℚ) / 10⟩ :=
  ⟨by norm_num, by norm_num,
    pid_settings_roundtrip emptyStore ⟨0, 0, 0, 0, 0, 0⟩ 60 60 0 123 45 0 65535 7 1
      (by norm_num) (by norm_num) (by norm_num) (by norm_num) (by norm_num) (by norm_num)⟩

/-- Folding `+ watt` equals adding the watt sum. -/
theorem foldl_add_watt (l : List Heater) (a : ℤ) :
    l.foldl (fun acc h => acc + h.watt) a = a + (l.map Heater.watt).sum := by
  induction l generalizing a with
  | nil => simp
  | cons h t ih => simp [List.foldl_cons, ih]; ring

/-- When every heater's `enabled` flag agrees with its run enablement, the
run's total wattage is the enabled watt sum. -/
theorem totalWattage_eq_enabledWattSum (b : Bool) (hs : List Heater)
    (henab : ∀ h ∈ hs, h.enabled = heaterEnabledFor b h) :
    totalWattage b hs = enabledWattSum hs := by
  unfold totalWattage enabledWattSum
  rw [foldl_add_watt, zero_add]
  have : hs.filter (heaterEnabledFor b) = hs.filter (fun h => h.enabled) := by
    apply List.filter_congr
    intro h hh
    rw [henab h hh]
  rw [this]

/-- The enabled watt sum over a cons. -/
theorem enabledWattSum_cons (h : Heater) (t : List Heater) :
    enabledWattSum (h :: t) = (if h.enabled then h.watt else 0) + enabledWattSum t := by
  unfold enabledWattSum
  cases he : h.enabled <;> simp [List.filter_cons, he]

/-- The enabled watt sum is non-negative when enabled heaters are rated at
least 1 W. -/
theorem enabledWattSum_nonneg (hs : List Heater)
    (hw : ∀ h ∈ hs, h.enabled = true → 1 ≤ h.watt) : 0 ≤ enabledWattSum hs := by
  induction hs with
  | nil => simp [enabledWattSum]
  | cons h t ih =>
    rw [enabledWattSum_cons]
    have ht : 0 ≤ enabledWattSum t := ih fun x hx => hw x (List.mem_cons_of_mem _ hx)
    cases he : h.enabled with
    | false => simpa using ht
    | true =>
      have := hw h (List.mem_cons_self _ _) he
      simp only [if_pos rfl]
      omega

/-- Greedy distribution of zero watts allocates zero everywhere. -/
theorem specGreedyAlloc_zero (hs : List Heater)
    (hw : ∀ h ∈ hs, h.enabled = true → 1 ≤ h.watt) :
    specGreedyAlloc hs 0 = hs.map fun _ => 0 := by
  induction hs with
  | nil => rfl
  | cons h t ih =>
    have ht := fun x hx => hw x (List.mem_cons_of_mem _ hx)
    cases he : h.enabled with
    | false => simp [specGreedyAlloc, he, ih ht]
    | true =>
      have hw1 := hw h (List.mem_cons_self _ _) he
      have hmin : min h.watt 0 = 0 := min_eq_right (by omega)
      simp [specGreedyAlloc, he, hmin, ih ht]

/-- The greedy distribution hands out `min(outputWatt, enabled wattage)` in
total. -/
theorem specGreedyAlloc_sum (hs : List Heater) (ow : ℤ) (h0 : 0 ≤ ow)
    (hw : ∀ h ∈ hs, h.enabled = true → 1 ≤ h.watt) :
    (specGreedyAlloc hs ow).sum = min ow (enabledWattSum hs) := by
  induction hs generalizing ow with
  | nil =>
    simp only [specGreedyAlloc, List.sum_nil, enabledWattSum, List.filter_nil,
      List.map_nil]
    omega
  | cons h t ih =>
    have ht := fun x hx => hw x (List.mem_cons_of_mem _ hx)
    rw [enabledWattSum_cons]
    cases he : h.enabled with
    | false =>
      rw [show specGreedyAlloc (h :: t) ow = 0 :: specGreedyAlloc t ow by
        simp [specGreedyAlloc, he]]
      simp only [List.sum_cons, ih ow h0 ht, he]
      simp
    | true =>
      have hw1 := hw h (List.mem_cons_self _ _) he
      have htnn := enabledWattSum_nonneg t ht
      have hcons : specGreedyAlloc (h :: t) ow
          = min h.watt ow :: specGreedyAlloc t (ow - min h.watt ow) := by
        simp [specGreedyAlloc, he]
      rcases le_or_lt h.watt ow with hle | hlt
      · have hmin : min h.watt ow = h.watt := min_eq_left hle
        rw [hcons, hmin, List.sum_cons, ih (ow - h.watt) (by omega) ht]
        simp only [if_true, eq_self_iff_true]
        omega
      · have hmin : min h.watt ow = ow := min_eq_right (by omega)
        have hz : specGreedyAlloc t (ow - ow) = t.map fun _ => 0 := by
          rw [sub_self]
          exact specGreedyAlloc_zero t ht
        rw [hcons, hmin, List.sum_cons, hz]
        have hzs : (List.map (fun _ => (0 : ℤ)) t).sum = 0 := by simp
        rw [hzs]
        simp only [if_true, eq_self_iff_true]
        omega

/-- The per-heater burn formula over an all-zero greedy allocation yields all
zeros. -/
theorem zip_zero_map (t : List Heater) :
    ((t.map fun _ => (0 : ℤ)).zip t).map (fun p => ⌊(p.1 : ℚ) / (p.2.watt : ℚ) * 100⌋)
      = t.map fun _ => (0 : ℤ) := by
  induction t with
  | nil => rfl
  | cons h t ih =>
    simp only [List.map_cons, List.zip_cons_cons]
    rw [ih]
    norm_num

/-- The burn-time allocation of `pidLoop` is the greedy per-heater saturation
with each heater's share converted to a truncated percentage of its rating. -/
theorem allocBurnTimes_eq_greedy (hs : List Heater) (ow : ℤ) (h0 : 0 ≤ ow)
    (hw : ∀ h ∈ hs, h.enabled = true → 1 ≤ h.watt) :
    allocBurnTimes hs ow
      = ((specGreedyAlloc hs ow).zip hs).map
          (fun p => ⌊(p.1 : ℚ) / (p.2.watt : ℚ) * 100⌋) := by
  induction hs generalizing ow with
  | nil => rfl
  | cons h t ih =>
    have ht := fun x hx => hw x (List.mem_cons_of_mem _ hx)
    cases he : h.enabled with
    | false =>
      rw [show specGreedyAlloc (h :: t) ow = 0 :: specGreedyAlloc t ow by
            simp [specGreedyAlloc, he],
          show allocBurnTimes (h :: t) ow = 0 :: allocBurnTimes t ow by
            simp [allocBurnTimes, he]]
      simp only [List.zip_cons_cons, List.map_cons, ih ow h0 ht]
      norm_num
    | true =>
      have hw1 := hw h (List.mem_cons_self _ _) he
      have hnlt : ¬ ow < 0 := by omega
      have hcons : specGreedyAlloc (h :: t) ow
          = min h.watt ow :: specGreedyAlloc t (ow - min h.watt ow) := by
        simp [specGreedyAlloc, he]
      rcases lt_or_le ow h.watt with hlt | hle
      · have hmin : min h.watt ow = ow := min_eq_right (by omega)
        have hz : specGreedyAlloc t (ow - ow) = t.map fun _ => 0 := by
          rw [sub_self]
          exact specGreedyAlloc_zero t ht
        rw [hcons, hmin, hz,
          show allocBurnTimes (h :: t) ow
              = ⌊(ow : ℚ) / (h.watt : ℚ) * 100⌋ :: t.map (fun _ => 0) by
            simp [allocBurnTimes, he, hnlt, hlt]]
        simp only [List.zip_cons_cons, List.map_cons, zip_zero_map]
      · have hmin : min h.watt ow = h.watt := min_eq_left hle
        have hns : ¬ ow < h.watt := by omega
        have hwq : ((h.watt : ℚ)) ≠ 0 := by
          exact_mod_cast (by omega : h.watt ≠ 0)
        have hdiv : ⌊(h.watt : ℚ) / (h.watt : ℚ) * 100⌋ = 100 := by
          rw [div_self hwq, one_mul]
          norm_num
        rw [hcons, hmin,
          show allocBurnTimes (h :: t) ow = 100 :: allocBurnTimes t (ow - h.watt) by
            simp [allocBurnTimes, he, hnlt, hns]]
        simp only [List.zip_cons_cons, List.map_cons, hdiv,
          ih (ow - h.watt) (by omega) ht]

/-- Claim C2 counterexample: with one 150 W heater at 50 % duty the code
computes `(150 / 100) * 50 = 50` W to distribute, not `150 * 50 / 100 = 75`
W as the claim's formula states, and the resulting burn time is 33 %, not the
50 % the claimed `min(heater.watt, 75)` allocation would give. -/
theorem duty_allocation_counterexample :
    outputWattOf (totalWattage false [⟨150, true, false, true⟩]) 50 = 50 ∧
    specOutputWatt (totalWattage false [⟨150, true, false, true⟩]) 50 = 75 ∧
    allocBurnTimes [⟨150, true, false, true⟩]
        (outputWattOf (totalWattage false [⟨150, true, false, true⟩]) 50) = [33] ∧
    (50 : ℤ) ≠ 75 := by
  have htw : totalWattage false [(⟨150, true, false, true⟩ : Heater)] = 150 := by decide
  have how : outputWattOf 150 50 = 50 := by decide
  refine ⟨by rw [htw]; exact how, by decide, ?_, by decide⟩
  rw [htw, how]
  rw [show allocBurnTimes [(⟨150, true, false, true⟩ : Heater)] 50
      = [⌊(50 : ℚ) / ((150 : ℤ) : ℚ) * 100⌋] by norm_num [allocBurnTimes]]
  norm_num

/-- Claim C2 (amended): the distributed wattage is
`outputWatt = (totalWatts / 100) · d` (integer division first); each enabled
heater's burn time is the truncated percentage `⌊100 · aᵢ / wattᵢ⌋` of the
greedy saturated allocation `aᵢ = min(wattᵢ, remaining)`, and the greedy
allocation sums exactly to `outputWatt`. -/
theorem duty_allocation (boilRun : Bool) (heaters : List Heater) (d : ℤ)
    (henab : ∀ h ∈ heaters, h.enabled = heaterEnabledFor boilRun h)
    (hw : ∀ h ∈ heaters, h.enabled = true → 1 ≤ h.watt)
    (hd0 : 0 ≤ d) (hd1 : d ≤ 100) :
    allocBurnTimes heaters (outputWattOf (totalWattage boilRun heaters) d)
      = ((specGreedyAlloc heaters (outputWattOf (totalWattage boilRun heaters) d)).zip
            heaters).map (fun p => ⌊(p.1 : ℚ) / (p.2.watt : ℚ) * 100⌋)
    ∧ (specGreedyAlloc heaters (outputWattOf (totalWattage boilRun heaters) d)).sum
        = outputWattOf (totalWattage boilRun heaters) d := by
  have htw : totalWattage boilRun heaters = enabledWattSum heaters :=
    totalWattage_eq_enabledWattSum boilRun heaters henab
  have hS : 0 ≤ enabledWattSum heaters := enabledWattSum_nonneg heaters hw
  have h0 : 0 ≤ outputWattOf (totalWattage boilRun heaters) d := by
    unfold outputWattOf
    have : 0 ≤ totalWattage boilRun heaters / 100 := by
      rw [htw]; exact Int.ediv_nonneg hS (by norm_num)
    exact mul_nonneg this hd0
  have hle : outputWattOf (totalWattage boilRun heaters) d ≤ enabledWattSum heaters := by
    unfold outputWattOf
    have h1 : totalWattage boilRun heaters / 100 * d
        ≤ totalWattage boilRun heaters / 100 * 100 := by
      have : 0 ≤ totalWattage boilRun heaters / 100 := by
        rw [htw]; exact Int.ediv_nonneg hS (by norm_num)
      exact mul_le_mul_of_nonneg_left hd1 this
    have h2 : totalWattage boilRun heaters / 100 * 100 ≤ totalWattage boilRun heaters := by
      have := Int.emod_nonneg (totalWattage boilRun heaters) (by norm_num : (100 : ℤ) ≠ 0)
      have hdm := Int.ediv_add_emod (totalWattage boilRun heaters) 100
      omega
    rw [← htw]
    omega
  refine ⟨allocBurnTimes_eq_greedy heaters _ h0 hw, ?_⟩
  rw [specGreedyAlloc_sum heaters _ h0 hw]
  omega

/-- Witness for C2: scenario S3 (2000 W + 1000 W at 65 %). -/
theorem duty_allocation_witness :
    allocBurnTimes s3heaters (outputWattOf (totalWattage false s3heaters) 65)
      = ((specGreedyAlloc s3heaters (outputWattOf (totalWattage false s3heaters) 65)).zip
            s3heaters).map (fun p => ⌊(p.1 : ℚ) / (p.2.watt : ℚ) * 100⌋)
    ∧ (specGreedyAlloc s3heaters (outputWattOf (totalWattage false s3heaters) 65)).sum
        = outputWattOf (totalWattage false s3heaters) 65 :=
  duty_allocation false s3heaters 65 (by decide) (by decide) (by decide) (by decide)

/-- Counting the seconds `i < B` among the first `n`. -/
theorem range_filter_lt_length (B : ℤ) (n : ℕ) :
    ((List.range n).filter fun i : ℕ => decide ((i : ℤ) < B)).length = min B.toNat n := by
  induction n with
  | zero => simp
  | succ n ih =>
    rw [List.range_succ, List.filter_append, List.length_append, ih]
    by_cases h : (n : ℤ) < B <;> simp [h] <;> omega

/-- The burn-second count is `burnUntil` clamped to the cycle length. -/
theorem onSeconds_eq_min (bt : ℤ) (plt : ℕ) :
    onSeconds bt plt = min (burnUntil bt (plt : ℤ)).toNat plt := by
  unfold onSeconds burnAt
  exact range_filter_lt_length _ _

/-- For a non-negative burn time, `burnUntil` is the floor of
`burnTime/100 · pidLoopTime`. -/
theorem burnUntil_eq_floor (bt plt : ℤ) (h0 : 0 ≤ bt) :
    burnUntil bt plt = ⌊(bt : ℚ) / 100 * ((plt : ℤ) : ℚ)⌋ := by
  unfold burnUntil
  rcases eq_or_lt_of_le h0 with h | h
  · rw [if_neg (by omega)]
    rw [← h]
    norm_num
  · rw [if_pos h]

/-- Claim C3 (amended): in every PID cycle a heater's burn flag is set for
exactly the first `⌊burnTime/100 · pidLoopTime⌋` seconds (truncation, not
rounding); concretely, in scenario S3 heater 1 gets burn time 97 % and is on
for 58 of 60 seconds while heater 2 is off for the whole cycle. -/
theorem burn_seconds (bt : ℤ) (plt : ℕ) (h0 : 0 ≤ bt) (h100 : bt ≤ 100) :
    (∀ i : ℕ, burnAt bt (plt : ℤ) (i : ℤ) = true ↔
        (i : ℤ) < ⌊(bt : ℚ) / 100 * (((plt : ℕ) : ℤ) : ℚ)⌋) ∧
    onSeconds bt plt = (⌊(bt : ℚ) / 100 * (((plt : ℕ) : ℤ) : ℚ)⌋).toNat ∧
    allocBurnTimes s3heaters (outputWattOf (totalWattage false s3heaters) 65) = [97, 0] ∧
    onSeconds 97 60 = 58 ∧ onSeconds 0 60 = 0 := by
  have hq0 : (0 : ℚ) ≤ (bt : ℚ) := by exact_mod_cast h0
  have hBnn : 0 ≤ ⌊(bt : ℚ) / 100 * (((plt : ℕ) : ℤ) : ℚ)⌋ := by
    apply Int.floor_nonneg.mpr
    apply mul_nonneg (div_nonneg hq0 (by norm_num))
    push_cast
    positivity
  have hBle : ⌊(bt : ℚ) / 100 * (((plt : ℕ) : ℤ) : ℚ)⌋ ≤ (plt : ℤ) := by
    have h1 : (bt : ℚ) / 100 ≤ 1 := by
      rw [div_le_one (by norm_num)]
      exact_mod_cast h100
    have h2 : (bt : ℚ) / 100 * (((plt : ℕ) : ℤ) : ℚ) ≤ (((plt : ℕ) : ℤ) : ℚ) := by
      apply mul_le_of_le_one_left _ h1
      push_cast
      positivity
    calc ⌊(bt : ℚ) / 100 * (((plt : ℕ) : ℤ) : ℚ)⌋ ≤ ⌊(((plt : ℕ) : ℤ) : ℚ)⌋ :=
          Int.floor_le_floor h2
    _ = (plt : ℤ) := Int.floor_intCast _
  have hS3alloc : allocBurnTimes s3heaters (outputWattOf (totalWattage false s3heaters) 65)
      = [97, 0] := by
    have htw : totalWattage false s3heaters = 3000 := by decide
    have how : outputWattOf 3000 65 = 1950 := by decide
    rw [htw, how]
    rw [show allocBurnTimes s3heaters 1950
        = [⌊(1950 : ℚ) / ((2000 : ℤ) : ℚ) * 100⌋, 0] by norm_num [allocBurnTimes, s3heaters]]
    norm_num
  have hS3on : onSeconds 97 60 = 58 := by
    rw [onSeconds_eq_min]
    rw [show burnUntil 97 ((60 : ℕ) : ℤ) = 58 by
      rw [burnUntil_eq_floor 97 _ (by norm_num)]
      norm_num]
    rfl
  have hS3off : onSeconds 0 60 = 0 := by
    rw [onSeconds_eq_min]
    rw [show burnUntil 0 ((60 : ℕ) : ℤ) = 0 by unfold burnUntil; norm_num]
    rfl
  refine ⟨?_, ?_, hS3alloc, hS3on, hS3off⟩
  · intro i
    rw [burnAt, burnUntil_eq_floor bt (plt : ℤ) h0]
    simp
  · rw [onSeconds_eq_min, burnUntil_eq_floor bt (plt : ℤ) h0]
    omega

/-- Claim C3 counterexample: burn time 97 % with a 50-second cycle keeps the
heater on for 48 seconds (truncation of 48.5), while the claimed
`round(burnTime/100 · pidLoopTime)` is 49. -/
theorem burn_seconds_counterexample :
    onSeconds 97 50 = 48 ∧ specRoundOnSeconds 97 50 = 49 ∧
    ((onSeconds 97 50 : ℤ) ≠ specRoundOnSeconds 97 50) := by
  have h1 : onSeconds 97 50 = 48 := by
    rw [onSeconds_eq_min]
    rw [show burnUntil 97 ((50 : ℕ) : ℤ) = 48 by
      rw [burnUntil_eq_floor 97 _ (by norm_num)]
      norm_num]
    rfl
  have h2 : specRoundOnSeconds 97 50 = 49 := by
    unfold specRoundOnSeconds
    rw [round_eq]
    norm_num
  exact ⟨h1, h2, by rw [h1, h2]; norm_num⟩

/-- Witness for C3: the S3 instance of the amended theorem. -/
theorem burn_seconds_witness :
    (0 : ℤ) ≤ 97 ∧ (97 : ℤ) ≤ 100 ∧
    onSeconds 97 60 = (⌊(97 : ℚ) / 100 * (((60 : ℕ) : ℤ) : ℚ)⌋).toNat :=
  ⟨by norm_num, by norm_num, (burn_seconds 97 60 (by norm_num) (by norm_num)).2.1⟩

/-- The cached threshold the boost block uses equals the computed one,
whether or not it was already cached. -/
theorem boostBlock_cached (stepTemp : ℚ) (bmu : ℕ) :
    (if boostThresholdCalc stepTemp bmu = 0 then boostThresholdCalc stepTemp bmu
     else boostThresholdCalc stepTemp bmu) = boostThresholdCalc stepTemp bmu := by
  split <;> rfl

/-- Claim C4 (amended): the boost threshold is the `uint` truncation
`⌊step.target · boostBaselinePercent / 100⌋` (57 for target 64 and 90 %, not
57.6); while Off and below the threshold the loop enters Boost (PID output
forced to 100), at or above the threshold Boost becomes Rest (output forced
to 0), and in Rest the first decline versus the previous sample returns to
Off and requests a PID reset. -/
theorem boost_cycle (bmu : ℕ) (stepTemp : ℚ) (prev : Option ℚ) (rpt : Bool) (p : ℤ) :
    (boostThresholdCalc stepTemp bmu = (⌊stepTemp * (bmu : ℚ) / 100⌋).toNat) ∧
    (∀ t : ℚ, t < (boostThresholdCalc stepTemp bmu : ℚ) →
      boostBlock bmu true stepTemp (some t) prev .off 0 rpt
        = (.boost, boostThresholdCalc stepTemp bmu, rpt)) ∧
    (∀ t : ℚ, (boostThresholdCalc stepTemp bmu : ℚ) ≤ t →
      boostBlock bmu true stepTemp (some t) prev .boost (boostThresholdCalc stepTemp bmu) rpt
        = (.rest, boostThresholdCalc stepTemp bmu, rpt)) ∧
    (∀ t pv : ℚ, t < pv →
      boostBlock bmu true stepTemp (some t) (some pv) .rest (boostThresholdCalc stepTemp bmu) rpt
        = (.off, boostThresholdCalc stepTemp bmu, true)) ∧
    appliedOutputPercent none .boost p = 100 ∧
    appliedOutputPercent none .rest p = 0 ∧
    boostThresholdCalc 64 90 = 57 := by
  refine ⟨?_, ?_, ?_, ?_, rfl, rfl, ?_⟩
  · unfold boostThresholdCalc
    rw [div_mul_eq_mul_div]
  · intro t ht
    simp [boostBlock, nanLt, ht]
  · intro t ht
    rw [boostBlock]
    rw [if_pos rfl, boostBlock_cached]
    rw [if_neg (by simp), if_pos (by simp [nanGe, ht])]
  · intro t pv ht
    rw [boostBlock]
    rw [if_pos rfl, boostBlock_cached]
    rw [if_neg (by simp), if_neg (by simp), if_pos (by simp [nanLtNan, ht])]
  · unfold boostThresholdCalc
    rw [show ⌊(64 : ℚ) / 100 * ((90 : ℕ) : ℚ)⌋ = 57 by norm_num]
    rfl

/-- Claim C4 counterexample: the claimed threshold for target 64 ° and 90 %
is 57.6, but the code's `uint` cast yields 57, and at 57.3 ° — still below
the claimed 57.6 threshold — the code already leaves Boost for Rest. -/
theorem boost_cycle_counterexample :
    ((boostThresholdCalc 64 90 : ℚ) ≠ specBoostThreshold 64 90) ∧
    boostBlock 90 true 64 (some (573 / 10)) (some 50) .boost 57 false = (.rest, 57, false) ∧
    ((573 / 10 : ℚ) < specBoostThreshold 64 90) := by
  refine ⟨?_, ?_, ?_⟩
  · rw [show boostThresholdCalc 64 90 = 57 by
      unfold boostThresholdCalc
      rw [show ⌊(64 : ℚ) / 100 * ((90 : ℕ) : ℚ)⌋ = 57 by norm_num]
      rfl]
    unfold specBoostThreshold
    norm_num
  · rw [boostBlock]
    rw [if_pos rfl]
    norm_num [nanGe, nanLt]
  · unfold specBoostThreshold
    norm_num

/-- Witness for C4: the S6 run — target 64, 90 %, threshold 57; Boost entered
at 50 °, Rest at 57.5 °, Off on the first decline. -/
theorem boost_cycle_witness :
    boostBlock 90 true 64 (some 50) (some 50) .off 0 false = (.boost, 57, false) ∧
    boostBlock 90 true 64 (some (115 / 2)) (some 57) .boost 57 false = (.rest, 57, false) ∧
    boostBlock 90 true 64 (some 57) (some (115 / 2)) .rest 57 false = (.off, 57, true) := by
  have h := boost_cycle 90 64 (some 50) false 0
  have h2 := boost_cycle 90 64 (some 57) false 0
  have h3 := boost_cycle 90 64 (some (115 / 2)) false 0
  have hthr : boostThresholdCalc 64 90 = 57 := h.2.2.2.2.2.2
  refine ⟨?_, ?_, ?_⟩
  · have := h.2.1 50 (by rw [hthr]; norm_num)
    rwa [hthr] at this
  · have := h2.2.2.1 (115 / 2) (by rw [hthr]; norm_num)
    rwa [hthr] at this
  · have := h3.2.2.2.1 57 (115 / 2) (by norm_num)
    rwa [hthr] at this

/-- Claim C5 (amended): the control average is NaN (`none`) exactly when no
`useForControl` sensor read successfully; but the control loop does not gate
on NaN — every NaN comparison is false, so a due step with
`extendIfNeeded` is not held in overtime and the runner advances to the next
step as if the target had been reached. -/
theorem control_average_nan_no_gate (reads : List SensorRead) (tempMargin : ℚ)
    (bmu : ℕ) (now : ℤ) (c : CtrlState)
    (hcontrib : (reads.filter fun s => s.ok && s.useForControl) = [])
    (hnan : c.temperature = none)
    (hidx : c.currentMashStep < c.executionSteps.length)
    (hnotif : c.notifications = [])
    (hio : c.inOverTime = false)
    (hrs : c.resetPIDNextStep = false)
    (hboost : (c.executionSteps.get ⟨c.currentMashStep, hidx⟩).allowBoost = false)
    (hdue : (c.executionSteps.get ⟨c.currentMashStep, hidx⟩).time ≤ now) :
    controlAverage reads = none ∧
    (∀ reads' : List SensorRead,
      controlAverage reads' = none ↔ (reads'.filter fun s => s.ok && s.useForControl) = []) ∧
    (controlTick tempMargin bmu now c).currentMashStep = c.currentMashStep + 1 ∧
    (controlTick tempMargin bmu now c).inOverTime = false := by
  have hiff : ∀ reads' : List SensorRead,
      controlAverage reads' = none ↔ (reads'.filter fun s => s.ok && s.useForControl) = [] := by
    intro reads'
    simp only [controlAverage]
    split
    · next h =>
      simp only [true_iff]
      rwa [List.length_eq_zero, List.map_eq_nil_iff] at h
    · next h =>
      simp only [reduceCtorEq, false_iff]
      intro hc
      apply h
      simp [hc]
  have hnlt : ¬ now < (c.executionSteps.get ⟨c.currentMashStep, hidx⟩).time := not_lt.mpr hdue
  simp only [List.get_eq_getElem] at hboost hnlt
  refine ⟨(hiff reads).mpr hcontrib, hiff, ?_, ?_⟩ <;>
  · rw [controlTick, dif_pos hidx]
    simp [boostBlock, nanSubGe, nanSubLe, fireNotifications, hboost, hnan, hio, hrs,
      hnotif, hnlt]

/-- Claim C5 counterexample: at the due extend sub-step with a NaN process
temperature the control loop does act — it advances to the next step instead
of entering overtime. -/
theorem nan_gating_counterexample :
    nanCtrlState.temperature = none ∧
    nanCtrlState.currentMashStep = 1 ∧
    (controlTick 1 0 1000 nanCtrlState).currentMashStep = 2 ∧
    (controlTick 1 0 1000 nanCtrlState).inOverTime = false := by
  refine ⟨rfl, rfl, ?_, ?_⟩ <;> rfl

/-- Witness for C5: one failed `useForControl` sensor and the NaN advance at
the concrete state. -/
theorem control_average_nan_no_gate_witness :
    controlAverage [⟨false, true, 20, 0, 1⟩] = none ∧
    (∀ reads' : List SensorRead,
      controlAverage reads' = none ↔ (reads'.filter fun s => s.ok && s.useForControl) = []) ∧
    (controlTick 1 0 1000 nanCtrlState).currentMashStep = nanCtrlState.currentMashStep + 1 ∧
    (controlTick 1 0 1000 nanCtrlState).inOverTime = false :=
  control_average_nan_no_gate [⟨false, true, 20, 0, 1⟩] 1 0 1000 nanCtrlState
    (by rfl) (by rfl) (by norm_num [nanCtrlState]) (by rfl) (by rfl) (by rfl)
    (by rfl) (by norm_num [nanCtrlState])

/-- Claim C6 (amended): the dispatcher's `if/else if` chain has no final
`else`, so a command outside the enumerated set falls through with the
initial `success = true`, no message, and no change to the state. -/
theorem unknown_command (now : ℤ) (sys : SysState) (req : Request)
    (h : req.command ∉ knownCommands) :
    processCommand now sys req = (sys, ⟨true, none⟩) := by
  simp only [knownCommands, List.mem_cons, List.not_mem_nil, or_false, not_or] at h
  obtain ⟨h1, h2, h3, h4, h5, h6, h7, h8, h9, h10, h11, h12, h13, h14, h15, h16, h17,
    h18, h19, h20, h21, h22, h23, h24, h25, h26, h27, h28, h29, h30, h31, h32, h33, h34⟩ := h
  rw [processCommand, if_neg h1, if_neg h2, if_neg h3, if_neg h4, if_neg h5, if_neg h6,
    if_neg h7, if_neg h8, if_neg h9, if_neg h10, if_neg h11, if_neg h12, if_neg h13,
    if_neg h14, if_neg h15, if_neg h16, if_neg h17, if_neg h18, if_neg h19, if_neg h20,
    if_neg h21, if_neg h22, if_neg h23, if_neg h24, if_neg h25, if_neg h26, if_neg h27,
    if_neg h28, if_neg h29, if_neg h30, if_neg h31, if_neg h32, if_neg h33, if_neg h34]

/-- Claim C6 counterexample: the bogus command "Bogus" comes back with
`success = true` and no message, not `success = false` with
"Unknown command". -/
theorem unknown_command_counterexample :
    (processCommand 0 idleSys (bareRequest "Bogus")).2.success = true ∧
    ¬((processCommand 0 idleSys (bareRequest "Bogus")).2.success = false ∧
      (processCommand 0 idleSys (bareRequest "Bogus")).2.message = some "Unknown command") := by
  have hs : (processCommand 0 idleSys (bareRequest "Bogus")).2.success = true := rfl
  refine ⟨hs, ?_⟩
  rintro ⟨hfalse, -⟩
  rw [hs] at hfalse
  cases hfalse

/-- Witness for C6: the "Bogus" command at the idle system. -/
theorem unknown_command_witness :
    processCommand 0 idleSys (bareRequest "Bogus") = (idleSys, ⟨true, none⟩) :=
  unknown_command 0 idleSys (bareRequest "Bogus") (by decide)

/-- Claim C7 (amended): a `SetTemp` request whose `targetTemp` is present but
not a number yields `success = false` with the human-readable message
"Incorrect data, integer or float expected!" and leaves the target
temperature unchanged — but it clears `overrideTargetTemperature` rather
than leaving it untouched. -/
theorem setTemp_illtyped (now : ℤ) (sys : SysState) (req : Request)
    (hc : req.command = "SetTemp")
    (hnn : req.targetTemp.isNull = false)
    (hnb : req.targetTemp.isNumber = false) :
    processCommand now sys req
      = ({ sys with eng := { sys.eng with overrideTargetTemperature := none } },
         ⟨false, some "Incorrect data, integer or float expected!"⟩) := by
  rw [processCommand, if_neg (by rw [hc]; decide), if_neg (by rw [hc]; decide), if_pos hc]
  rw [if_neg (by simp [hnn])]
  cases ht : req.targetTemp
  all_goals simp_all [JField.isNull, JField.isNumber]

/-- Claim C7 counterexample: with an override of 50 ° in place, an ill-typed
`SetTemp` does change state — the override is cleared on the error path. -/
theorem setTemp_illtyped_counterexample :
    overrideSys.eng.overrideTargetTemperature = some 50 ∧
    (processCommand 0 overrideSys badSetTempRequest).2.success = false ∧
    (processCommand 0 overrideSys badSetTempRequest).1.eng.overrideTargetTemperature = none ∧
    (some (50 : ℚ) ≠ (none : Option ℚ)) := by
  exact ⟨rfl, rfl, rfl, by simp⟩

/-- Witness for C7: the ill-typed request at the idle system. -/
theorem setTemp_illtyped_witness :
    processCommand 0 idleSys badSetTempRequest
      = ({ idleSys with eng := { idleSys.eng with overrideTargetTemperature := none } },
         ⟨false, some "Incorrect data, integer or float expected!"⟩) :=
  setTemp_illtyped 0 idleSys badSetTempRequest rfl rfl rfl

/-- `stop` leaves an engine that is already idle (not running, boost off, not
in overtime, status "Idle") unchanged. -/
theorem engineStop_noop (s : EngineState) (h1 : s.controlRun = false)
    (h2 : s.boostStatus = .off) (h3 : s.inOverTime = false)
    (h4 : s.statusText = "Idle") : engineStop s = s := by
  cases s
  simp_all [engineStop]

/-- `EndSession` without an active session is the identity. -/
theorem endSession_inactive (now : ℤ) (ss : StatsState) (st : Store)
    (h : ss.sessionActive = false) : endSession now ss st = (ss, st) := by
  rw [endSession, if_pos h]

/-- Claim C8 (amended): the member functions are no-ops in the claimed
directions — `start` is fully guarded by `!controlRun`, and `stop` on an
engine already in the idle configuration changes nothing; the dispatcher's
`Stop` command on an idle system with no active session is likewise a no-op.
(The dispatcher's `Start` command is *not* a no-op while running: it rewrites
the selected schedule name and restarts the statistics session.) -/
theorem start_stop_noop (s s' : EngineState) (now : ℤ) (sys : SysState)
    (hrun : s.controlRun = true)
    (h1 : s'.controlRun = false) (h2 : s'.boostStatus = .off)
    (h3 : s'.inOverTime = false) (h4 : s'.statusText = "Idle")
    (hSysRun : sys.eng.controlRun = false) (hSysB : sys.eng.boostStatus = .off)
    (hSysO : sys.eng.inOverTime = false) (hSysS : sys.eng.statusText = "Idle")
    (hSess : sys.stats.sessionActive = false) :
    engineStart s = s ∧ engineStop s' = s' ∧
    processCommand now sys (bareRequest "Stop") = (sys, ⟨true, none⟩) := by
  refine ⟨?_, engineStop_noop s' h1 h2 h3 h4, ?_⟩
  · rw [engineStart, if_neg (by simp [hrun])]
  · rw [processCommand]
    rw [if_neg (by decide), if_neg (by decide), if_neg (by decide), if_neg (by decide),
      if_neg (by decide), if_neg (by decide), if_pos (by rfl)]
    rw [endSession_inactive now sys.stats sys.store hSess,
      engineStop_noop sys.eng hSysRun hSysB hSysO hSysS]

/-- Claim C8 counterexample: a `Start` command arriving while the engine is
already running still rewrites the selected schedule and hands out a fresh
session id — not a no-op. -/
theorem start_stop_noop_counterexample :
    runningSys.eng.controlRun = true ∧
    runningSys.eng.selectedMashScheduleName = "A" ∧
    (processCommand 0 runningSys startRequestB).1.eng.selectedMashScheduleName = "B" ∧
    runningSys.stats.currentSessionId = 5 ∧
    (processCommand 0 runningSys startRequestB).1.stats.currentSessionId = 7 := by
  exact ⟨rfl, rfl, rfl, rfl, rfl⟩

/-- Witness for C8: concrete no-ops at the running engine, the idle engine
and the idle system. -/
theorem start_stop_noop_witness :
    engineStart runningEngine = runningEngine ∧
    engineStop idleEngine = idleEngine ∧
    processCommand 0 idleSys (bareRequest "Stop") = (idleSys, ⟨true, none⟩) :=
  start_stop_noop runningEngine idleEngine 0 idleSys rfl rfl rfl rfl rfl rfl rfl rfl rfl rfl

/-- Reading back the key just written. -/
theorem Store.write_self (st : Store) (k : String) (v : StoredVal) :
    (st.write k v) k = some v := by
  simp [Store.write]

/-- Reading a different key passes through a write. -/
theorem Store.write_other (st : Store) (k k' : String) (v : StoredVal)
    (h : k' ≠ k) : (st.write k v) k' = st k' := by
  simp [Store.write, h]

/-- A session metadata key never collides with the statistics counters. -/
theorem sessionKey_ne_stat (x : String) :
    ("session_" ++ x) ≠ "stat_next_id" ∧ ("session_" ++ x) ≠ "stat_count" ∧
    ("session_" ++ x) ≠ "stat_max" := by
  refine ⟨?_, ?_, ?_⟩ <;>
  · intro h
    have h2 := congrArg String.data h
    rw [String.data_append] at h2
    simp at h2

/-- A session data key never collides with the statistics counters or a
metadata key. -/
theorem dataKey_ne (x y : String) :
    ("data_" ++ x) ≠ "stat_next_id" ∧ ("data_" ++ x) ≠ "stat_count" ∧
    ("data_" ++ x) ≠ "stat_max" ∧ ("data_" ++ x) ≠ ("session_" ++ y) := by
  refine ⟨?_, ?_, ?_, ?_⟩ <;>
  · intro h
    have h2 := congrArg String.data h
    rw [String.data_append] at h2
    try rw [String.data_append] at h2
    simp at h2

/-- `cleanupOldSessions` is the identity while the stored session count does
not exceed the cap. -/
theorem cleanup_noop (st : Store) (cnt maxS : ℕ)
    (hcnt : st "stat_count" = some (.u16 cnt))
    (hmax : st "stat_max" = some (.u8 maxS))
    (h : cnt ≤ maxS) : cleanupOldSessions st = st := by
  simp only [cleanupOldSessions, Store.readU8, Store.readU16, hcnt, hmax]
  rw [if_pos h]

/-- The store `endSession` leaves behind for an active session: the session
record persisted under its key, counters bumped, cap cleanup applied. -/
theorem endSession_spec (now : ℤ) (ss : StatsState) (st : Store) (cnt : ℕ)
    (hactive : ss.sessionActive = true)
    (hcnt : st "stat_count" = some (.u16 cnt)) :
    endSession now ss st
      = (⟨false, 0, ss.sessionStartTime, [], ""⟩,
         cleanupOldSessions
           (((if ss.currentSessionData = [] then
                st.write ("session_" ++ toString ss.currentSessionId)
                  (.blobSession
                    { sessionId := ss.currentSessionId
                      startTime := ss.sessionStartTime
                      endTime := now
                      scheduleName := ss.currentScheduleName.take 31
                      dataPoints := ss.currentSessionData.length % 65536
                      avgTemperature := (calculateSessionStats ss.currentSessionData).1
                      maxTemperature := (calculateSessionStats ss.currentSessionData).2.2
                      minTemperature := (calculateSessionStats ss.currentSessionData).2.1
                      totalDuration := now - ss.sessionStartTime
                      completed := true })
              else
                (st.write ("session_" ++ toString ss.currentSessionId)
                  (.blobSession
                    { sessionId := ss.currentSessionId
                      startTime := ss.sessionStartTime
                      endTime := now
                      scheduleName := ss.currentScheduleName.take 31
                      dataPoints := ss.currentSessionData.length % 65536
                      avgTemperature := (calculateSessionStats ss.currentSessionData).1
                      maxTemperature := (calculateSessionStats ss.currentSessionData).2.2
                      minTemperature := (calculateSessionStats ss.currentSessionData).2.1
                      totalDuration := now - ss.sessionStartTime
                      completed := true })).write
                  ("data_" ++ toString ss.currentSessionId)
                  (.blobPoints ss.currentSessionData))).write
             "stat_count" (.u16 ((cnt + 1) % 65536)))) := by
  have hkS := sessionKey_ne_stat (toString ss.currentSessionId)
  have hkD := dataKey_ne (toString ss.currentSessionId) (toString ss.currentSessionId)
  have hlook : (if ss.currentSessionData = [] then
        st.write ("session_" ++ toString ss.currentSessionId)
          (.blobSession
            { sessionId := ss.currentSessionId
              startTime := ss.sessionStartTime
              endTime := now
              scheduleName := ss.currentScheduleName.take 31
              dataPoints := ss.currentSessionData.length % 65536
              avgTemperature := (calculateSessionStats ss.currentSessionData).1
              maxTemperature := (calculateSessionStats ss.currentSessionData).2.2
              minTemperature := (calculateSessionStats ss.currentSessionData).2.1
              totalDuration := now - ss.sessionStartTime
              completed := true })
      else
        (st.write ("session_" ++ toString ss.currentSessionId)
          (.blobSession
            { sessionId := ss.currentSessionId
              startTime := ss.sessionStartTime
              endTime := now
              scheduleName := ss.currentScheduleName.take 31
              dataPoints := ss.currentSessionData.length % 65536
              avgTemperature := (calculateSessionStats ss.currentSessionData).1
              maxTemperature := (calculateSessionStats ss.currentSessionData).2.2
              minTemperature := (calculateSessionStats ss.currentSessionData).2.1
              totalDuration := now - ss.sessionStartTime
              completed := true })).write
          ("data_" ++ toString ss.currentSessionId)
          (.blobPoints ss.currentSessionData)) "stat_count" = some (.u16 cnt) := by
    split
    · rw [Store.write_other _ _ _ _ (fun hc => hkS.2.1 hc.symm)]
      exact hcnt
    · rw [Store.write_other _ _ _ _ (fun hc => hkD.2.1 hc.symm),
        Store.write_other _ _ _ _ (fun hc => hkS.2.1 hc.symm)]
      exact hcnt
  simp only [endSession]
  rw [if_neg (by simp [hactive])]
  simp only [Store.readU16, hlook]

/-- Looking up an unrelated key through the metadata/data writes of
`endSession`. -/
theorem ifStore_lookup (st : Store) (x : String) (v w : StoredVal) (b : Prop)
    [Decidable b] (k : String) (hks : k ≠ "session_" ++ x) (hkd : k ≠ "data_" ++ x) :
    (if b then st.write ("session_" ++ x) v
     else (st.write ("session_" ++ x) v).write ("data_" ++ x) w) k = st k := by
  split
  · exact Store.write_other st _ _ _ hks
  · rw [Store.write_other _ _ _ _ hkd]
    exact Store.write_other st _ _ _ hks

/-- Looking up the session metadata key after the `endSession` writes. -/
theorem ifStore_keyS (st : Store) (x : String) (v w : StoredVal) (b : Prop)
    [Decidable b] :
    (if b then st.write ("session_" ++ x) v
     else (st.write ("session_" ++ x) v).write ("data_" ++ x) w)
      ("session_" ++ x) = some v := by
  split
  · exact Store.write_self st _ _
  · rw [Store.write_other _ _ _ _ (fun hc => (dataKey_ne x x).2.2.2 hc.symm)]
    exact Store.write_self st _ _

/-- Ending an active session persists its completed record and does not
touch the stored next session id. -/
theorem endSession_spec2 (now : ℤ) (ss : StatsState) (st : Store) (cnt maxS : ℕ)
    (hactive : ss.sessionActive = true)
    (hcnt : st "stat_count" = some (.u16 cnt))
    (hmax : st "stat_max" = some (.u8 maxS))
    (hcnt1 : cnt + 1 < 65536)
    (hcap : cnt + 1 ≤ maxS) :
    ∃ S : Store,
      endSession now ss st = (⟨false, 0, ss.sessionStartTime, [], ""⟩, S) ∧
      S ("session_" ++ toString ss.currentSessionId)
        = some (.blobSession
            { sessionId := ss.currentSessionId
              startTime := ss.sessionStartTime
              endTime := now
              scheduleName := ss.currentScheduleName.take 31
              dataPoints := ss.currentSessionData.length % 65536
              avgTemperature := (calculateSessionStats ss.currentSessionData).1
              maxTemperature := (calculateSessionStats ss.currentSessionData).2.2
              minTemperature := (calculateSessionStats ss.currentSessionData).2.1
              totalDuration := now - ss.sessionStartTime
              completed := true }) ∧
      S "stat_next_id" = st "stat_next_id" := by
  have hkS := sessionKey_ne_stat (toString ss.currentSessionId)
  have hkD := dataKey_ne (toString ss.currentSessionId) (toString ss.currentSessionId)
  refine ⟨(endSession now ss st).2, ?_, ?_, ?_⟩
  · rw [endSession_spec now ss st cnt hactive hcnt]
  · rw [endSession_spec now ss st cnt hactive hcnt]
    dsimp only
    rw [cleanup_noop _ ((cnt + 1) % 65536) maxS]
    · rw [Store.write_other _ _ _ _ hkS.2.1]
      exact ifStore_keyS st _ _ _ _
    · exact Store.write_self _ _ _
    · rw [Store.write_other _ _ _ _ (by decide)]
      rw [ifStore_lookup st _ _ _ _ _ (Ne.symm hkS.2.2) (Ne.symm hkD.2.2.1)]
      exact hmax
    · rw [Nat.mod_eq_of_lt hcnt1]
      exact hcap
  · rw [endSession_spec now ss st cnt hactive hcnt]
    dsimp only
    rw [cleanup_noop _ ((cnt + 1) % 65536) maxS]
    · rw [Store.write_other _ _ _ _ (by decide)]
      exact ifStore_lookup st _ _ _ _ _ (Ne.symm hkS.1) (Ne.symm hkD.1)
    · exact Store.write_self _ _ _
    · rw [Store.write_other _ _ _ _ (by decide)]
      rw [ifStore_lookup st _ _ _ _ _ (Ne.symm hkS.2.2) (Ne.symm hkD.2.2.1)]
      exact hmax
    · rw [Nat.mod_eq_of_lt hcnt1]
      exact hcap

/-- Claim C10 (amended): starting a session while one is active first ends
and persists the active session as completed and only then begins the new
session under the persisted next id; ids increase by exactly 1 per session
started, as a 16-bit counter (so modulo 2^16 — after id 65535 the next
handed out is 0). -/
theorem session_restart (now : ℤ) (name : String) (ss : StatsState) (st : Store)
    (n cnt maxS : ℕ)
    (hactive : ss.sessionActive = true)
    (hid : st "stat_next_id" = some (.u16 n))
    (hcnt : st "stat_count" = some (.u16 cnt))
    (hmax : st "stat_max" = some (.u8 maxS))
    (hcnt1 : cnt + 1 < 65536)
    (hcap : cnt + 1 ≤ maxS) :
    (startSession now name ss st).2 ("session_" ++ toString ss.currentSessionId)
      = some (.blobSession
          { sessionId := ss.currentSessionId
            startTime := ss.sessionStartTime
            endTime := now
            scheduleName := ss.currentScheduleName.take 31
            dataPoints := ss.currentSessionData.length % 65536
            avgTemperature := (calculateSessionStats ss.currentSessionData).1
            maxTemperature := (calculateSessionStats ss.currentSessionData).2.2
            minTemperature := (calculateSessionStats ss.currentSessionData).2.1
            totalDuration := now - ss.sessionStartTime
            completed := true }) ∧
    (startSession now name ss st).1.sessionActive = true ∧
    (startSession now name ss st).1.currentSessionId = n ∧
    (startSession now name ss st).1.currentScheduleName = name ∧
    (startSession now name ss st).2 "stat_next_id" = some (.u16 ((n + 1) % 65536)) := by
  obtain ⟨S, hS, hSkey, hSid⟩ := endSession_spec2 now ss st cnt maxS hactive hcnt hmax hcnt1 hcap
  rw [hid] at hSid
  simp only [startSession, hactive, if_true, hS, getNextSessionId, Store.readU16, hSid]
  have hkS := sessionKey_ne_stat (toString ss.currentSessionId)
  refine ⟨?_, trivial, trivial, trivial, Store.write_self _ _ _⟩
  rw [Store.write_other _ _ _ _ hkS.1]
  exact hSkey

set_option maxRecDepth 8000 in
/-- Claim C10 counterexample: the next session id is persisted as a
`uint16_t`; with the stored next id at 65535 the first session gets id 65535
and the one after it gets id 0 — not 65536. -/
theorem session_restart_counterexample :
    (startSession 0 "a" idleStats wrapStore).1.currentSessionId = 65535 ∧
    (startSession 1 "b" (startSession 0 "a" idleStats wrapStore).1
        (startSession 0 "a" idleStats wrapStore).2).1.currentSessionId = 0 ∧
    (0 : ℕ) ≠ 65535 + 1 := by
  exact ⟨rfl, rfl, by decide⟩

set_option maxRecDepth 8000 in
/-- Witness for C10: a concrete restart with session 5 active, next id 7 and
one stored session. -/
theorem session_restart_witness :
    (startSession 9 "B" activeStats
        (((emptyStore.write "stat_next_id" (.u16 7)).write "stat_count"
            (.u16 1)).write "stat_max" (.u8 10))).1.currentSessionId = 7 ∧
    (startSession 9 "B" activeStats
        (((emptyStore.write "stat_next_id" (.u16 7)).write "stat_count"
            (.u16 1)).write "stat_max" (.u8 10))).2 ("session_" ++ toString 5)
      = some (.blobSession
          { sessionId := 5
            startTime := 0
            endTime := 9
            scheduleName := "A"
            dataPoints := 0
            avgTemperature := 0
            maxTemperature := 0
            minTemperature := 0
            totalDuration := 9
            completed := true }) := by
  have h := session_restart 9 "B" activeStats
    (((emptyStore.write "stat_next_id" (.u16 7)).write "stat_count"
        (.u16 1)).write "stat_max" (.u8 10)) 7 1 10
    rfl (by rfl) (by rfl) (by rfl) (by norm_num) (by norm_num)
  exact ⟨h.2.2.1, h.1⟩

theorem rampMiddle_time_mem (si t0 : ℤ) (p d : ℚ) (b : Bool) :
    ∀ (n j : ℕ) (pst : ℚ), ∀ e ∈ rampMiddle si t0 p d b j n pst,
      ∃ m : ℕ, j < m ∧ m ≤ j + n ∧ e.time = t0 + (m : ℤ) * si := by
  intro n
  induction n with
  | zero => intro j pst e he; simp [rampMiddle] at he
  | succ n ih =>
    intro j pst e he
    rw [rampMiddle] at he
    split at he
    · rcases List.mem_cons.mp he with h | h
      · exact ⟨j + 1, by omega, by omega, by rw [h]; push_cast; ring⟩
      · obtain ⟨m, hm1, hm2, hm3⟩ := ih (j + 1) _ e h
        exact ⟨m, by omega, by omega, hm3⟩
    · obtain ⟨m, hm1, hm2, hm3⟩ := ih (j + 1) pst e he
      exact ⟨m, by omega, by omega, hm3⟩

theorem rampMiddle_times_sorted (si t0 : ℤ) (p d : ℚ) (b : Bool) (hsi : 1 ≤ si) :
    ∀ (n j : ℕ) (pst : ℚ),
      ((rampMiddle si t0 p d b j n pst).map ExecutionStep.time).Pairwise (· < ·) := by
  intro n
  induction n with
  | zero => intro j pst; simp [rampMiddle]
  | succ n ih =>
    intro j pst
    rw [rampMiddle]
    split
    · rw [List.map_cons]
      refine List.Pairwise.cons ?_ (ih (j + 1) _)
      intro y hy
      rw [List.mem_map] at hy
      obtain ⟨e, he, rfl⟩ := hy
      obtain ⟨m, hm1, hm2, hm3⟩ := rampMiddle_time_mem si t0 p d b n (j + 1) _ e he
      rw [hm3]
      have hlt : ((j : ℤ) + 1) * si < (m : ℤ) * si := by
        apply mul_lt_mul_of_pos_right _ (by omega)
        omega
      dsimp only
      omega
    · exact ih (j + 1) pst

theorem block_spec (t0 si k : ℤ) (p diff : ℚ) (ext boost : Bool)
    (holdEnd : ℤ) (tempHold : ℚ)
    (hsi : 1 ≤ si) (hk : 1 ≤ k) (hlt : k * si < holdEnd - t0) :
    (((rampMiddle si t0 p diff boost 0 (k.toNat - 1) 0
        ++ [(⟨t0 + k * si, p + diff * (k : ℚ), ext, boost⟩ : ExecutionStep)]
        ++ [(⟨holdEnd, tempHold, false, false⟩ : ExecutionStep)]).map ExecutionStep.time).Pairwise (· < ·)) ∧
    (∀ e ∈ rampMiddle si t0 p diff boost 0 (k.toNat - 1) 0
        ++ [(⟨t0 + k * si, p + diff * (k : ℚ), ext, boost⟩ : ExecutionStep)]
        ++ [(⟨holdEnd, tempHold, false, false⟩ : ExecutionStep)],
      t0 < e.time ∧ e.time ≤ holdEnd) := by
  have hktn : ((k.toNat : ℤ)) = k := Int.toNat_of_nonneg (by omega)
  have hmid : ∀ e ∈ rampMiddle si t0 p diff boost 0 (k.toNat - 1) 0,
      ∃ m : ℕ, 1 ≤ m ∧ (m : ℤ) ≤ k - 1 ∧ e.time = t0 + (m : ℤ) * si := by
    intro e he
    obtain ⟨m, hm1, hm2, hm3⟩ := rampMiddle_time_mem si t0 p diff boost (k.toNat - 1) 0 0 e he
    exact ⟨m, by omega, by omega, hm3⟩
  have hmidlt : ∀ e ∈ rampMiddle si t0 p diff boost 0 (k.toNat - 1) 0,
      t0 < e.time ∧ e.time < t0 + k * si := by
    intro e he
    obtain ⟨m, hm1, hm2, hm3⟩ := hmid e he
    constructor
    · rw [hm3]
      have : (1 : ℤ) * si ≤ (m : ℤ) * si :=
        mul_le_mul_of_nonneg_right (by exact_mod_cast hm1) (by omega)
      omega
    · rw [hm3]
      have : (m : ℤ) * si < k * si := mul_lt_mul_of_pos_right (by omega) (by omega)
      omega
  have hkpos : 0 < k * si := by
    have : (1 : ℤ) * si ≤ k * si := mul_le_mul_of_nonneg_right hk (by omega)
    omega
  constructor
  · rw [List.map_append, List.map_append, List.pairwise_append]
    refine ⟨?_, ?_, ?_⟩
    · rw [List.pairwise_append]
      refine ⟨rampMiddle_times_sorted si t0 p diff boost hsi _ _ _, by simp, ?_⟩
      intro a ha b hb
      rw [List.mem_map] at ha
      obtain ⟨e, he, rfl⟩ := ha
      simp only [List.map_singleton, List.mem_singleton] at hb
      subst hb
      exact (hmidlt e he).2
    · simp
    · intro a ha b hb
      simp only [List.map_singleton, List.mem_singleton] at hb
      subst hb
      rw [List.mem_append] at ha
      rcases ha with ha | ha
      · rw [List.mem_map] at ha
        obtain ⟨e, he, rfl⟩ := ha
        have := (hmidlt e he).2
        omega
      · simp only [List.map_singleton, List.mem_singleton] at ha
        subst ha
        omega
  · intro e he
    rw [List.append_assoc, List.mem_append] at he
    rcases he with he | he
    · have h1 := hmidlt e he
      omega
    · rw [List.mem_append, List.mem_singleton, List.mem_singleton] at he
      rcases he with rfl | rfl
      · dsimp only
        omega
      · dsimp only
        omega

theorem compileStep_spec (si : ℤ) (bmu : ℕ) (st : LoadState) (step : MashStep)
    (hsi : 1 ≤ si) (hhold : 1 ≤ step.time) (hst0 : 0 ≤ step.stepTime)
    (hramp : (0 < step.stepTime ∨ step.extendStepTimeIfNeeded = true) →
      si ≤ 60 * (if step.stepTime = 0 then 1 else step.stepTime)) :
    ∃ Δ, (compileStep si bmu st step).steps = st.steps ++ Δ ∧
      ((Δ.map ExecutionStep.time).Pairwise (· < ·)) ∧
      (∀ e ∈ Δ, st.prevTime < e.time ∧ e.time ≤ (compileStep si bmu st step).prevTime) ∧
      st.prevTime ≤ (compileStep si bmu st step).prevTime := by
  by_cases hb : 0 < step.stepTime ∨ step.extendStepTimeIfNeeded = true
  · have hrsi := hramp hb
    have hst1 : 1 ≤ (if step.stepTime = 0 then 1 else step.stepTime) := by
      split <;> omega
    simp only [compileStep, if_pos hb]
    set stepTime : ℤ := if step.stepTime = 0 then 1 else step.stepTime with hstepTime
    set boost : Bool := step.allowBoost && decide (0 < bmu) with hboost
    set k : ℤ := if boost = true then 1 else max 1 (60 * stepTime / si - 1) with hk
    set diff : ℚ := ((step.temperature : ℚ) - st.prevTemp) / (k : ℚ) with hdiff
    have hk1 : 1 ≤ k := by
      rw [hk]
      split
      · omega
      · exact le_max_left _ _
    have hksi : k * si < 60 * stepTime + 60 * step.time := by
      have hkle : k = 1 ∨ (2 ≤ k ∧ k = 60 * stepTime / si - 1) := by
        rw [hk]
        split
        · left; rfl
        · rcases le_or_lt (60 * stepTime / si - 1) 1 with h | h
          · left; omega
          · right
            constructor
            · have := le_max_right (1 : ℤ) (60 * stepTime / si - 1)
              omega
            · omega
      rcases hkle with h1 | ⟨h2, h3⟩
      · rw [h1]
        omega
      · have hmul : si * (60 * stepTime / si) + 60 * stepTime % si = 60 * stepTime :=
          Int.ediv_add_emod _ _
        have hmod : 0 ≤ 60 * stepTime % si := Int.emod_nonneg _ (by omega)
        have hexp : k * si = si * (60 * stepTime / si) - si := by
          rw [h3]; ring
        omega
    have hblock := block_spec st.prevTime si k st.prevTemp diff
      step.extendStepTimeIfNeeded boost (st.prevTime + 60 * stepTime + 60 * step.time)
      (step.temperature : ℚ) hsi hk1 (by omega)
    refine ⟨_ ++ [_], List.append_assoc _ _ _, ?_, ?_, ?_⟩
    · exact hblock.1
    · intro e he
      exact hblock.2 e he
    · dsimp only
      omega
  · simp only [compileStep, if_neg hb]
    refine ⟨_, rfl, ?_, ?_, ?_⟩
    · simp only [List.map_cons, List.map_nil]
      refine List.Pairwise.cons ?_ (List.pairwise_singleton _ _)
      intro b hbm
      simp only [List.mem_singleton] at hbm
      subst hbm
      omega
    · intro e he
      simp only [List.mem_cons, List.not_mem_nil, or_false] at he
      rcases he with rfl | rfl
      · dsimp only
        omega
      · dsimp only
        omega
    · dsimp only
      omega

theorem loadScheduleSteps_spec (si : ℤ) (bmu : ℕ) (hsi : 1 ≤ si) :
    ∀ (steps : List MashStep) (st : LoadState),
      (∀ stp ∈ steps, 1 ≤ stp.time ∧ 0 ≤ stp.stepTime ∧
        ((0 < stp.stepTime ∨ stp.extendStepTimeIfNeeded = true) →
          si ≤ 60 * (if stp.stepTime = 0 then 1 else stp.stepTime))) →
      ((st.steps.map ExecutionStep.time).Pairwise (· < ·)) →
      (∀ e ∈ st.steps, e.time ≤ st.prevTime) →
      (((steps.foldl (compileStep si bmu) st).steps.map ExecutionStep.time).Pairwise (· < ·)) ∧
      (∀ e ∈ (steps.foldl (compileStep si bmu) st).steps,
        e.time ≤ (steps.foldl (compileStep si bmu) st).prevTime) := by
  intro steps
  induction steps with
  | nil =>
    intro st _ h1 h2
    exact ⟨h1, h2⟩
  | cons s t ih =>
    intro st hsteps h1 h2
    rw [List.foldl_cons]
    obtain ⟨hs1, hs2, hs3⟩ := hsteps s (List.mem_cons_self _ _)
    obtain ⟨Δ, hΔeq, hΔsort, hΔmem, hΔle⟩ := compileStep_spec si bmu st s hsi hs1 hs2 hs3
    apply ih (compileStep si bmu st s) (fun x hx => hsteps x (List.mem_cons_of_mem _ hx))
    · rw [hΔeq, List.map_append, List.pairwise_append]
      refine ⟨h1, hΔsort, ?_⟩
      intro a ha b hb
      rw [List.mem_map] at ha hb
      obtain ⟨ea, hea, rfl⟩ := ha
      obtain ⟨eb, heb, rfl⟩ := hb
      have h3 := h2 ea hea
      have h4 := (hΔmem eb heb).1
      omega
    · intro e he
      rw [hΔeq, List.mem_append] at he
      rcases he with he | he
      · have := h2 e he
        omega
      · exact (hΔmem e he).2

/-- Claim C1 (amended). For a schedule whose every step has a hold time of at
least one minute, a non-negative ramp time, and (when a ramp is actually
generated) a step interval no larger than the ramp duration, and whose
notifications are ordered by timeFromStart, `loadSchedule` produces execution
steps with strictly increasing absolute times and notifications with
non-decreasing time points. The unamended claim (strict increase for every
schedule) is refuted by `schedule_compile_counterexample`. -/
theorem schedule_compile_monotone (si : ℤ) (bmu : ℕ) (startTemp : ℚ)
    (sched : MashSchedule)
    (hsi : 1 ≤ si)
    (hsteps : ∀ stp ∈ sched.steps, 1 ≤ stp.time ∧ 0 ≤ stp.stepTime ∧
      ((0 < stp.stepTime ∨ stp.extendStepTimeIfNeeded = true) →
        si ≤ 60 * (if stp.stepTime = 0 then 1 else stp.stepTime)))
    (hnotif : sched.notifications.Pairwise
      (fun a b => a.timeFromStart ≤ b.timeFromStart)) :
    (((loadSchedule si bmu startTemp sched).1.map ExecutionStep.time).Pairwise (· < ·)) ∧
    (((loadSchedule si bmu startTemp sched).2.map
        CompiledNotification.timePoint).Pairwise (· ≤ ·)) := by
  constructor
  · have h := loadScheduleSteps_spec si bmu hsi sched.steps
      ⟨0, startTemp, 0, [⟨0, startTemp, false, false⟩]⟩ hsteps
      (by simp)
      (by
        intro e he
        simp only [List.mem_singleton] at he
        subst he
        exact le_refl _)
    exact h.1
  · simp only [loadSchedule, compileNotifications, List.map_map]
    refine List.Pairwise.map _ ?_ hnotif
    intro a b hab
    dsimp only [Function.comp]
    omega

/-- Counterexample to the unrestricted Claim C1: a single step with
stepTime = 0 and time = 0 compiles to absolute times [0, 10, 10] — the hold
point duplicates the step point, so the sequence is not strictly
increasing. -/
theorem schedule_compile_counterexample :
    ¬ (((loadSchedule 60 0 20
          ⟨"cex", false, [⟨0, 0, 64, false, false⟩], []⟩).1.map
        ExecutionStep.time).Pairwise (· < ·)) := by
  have hval : ((loadSchedule 60 0 20
        ⟨"cex", false, [⟨0, 0, 64, false, false⟩], []⟩).1.map
      ExecutionStep.time) = [0, 10, 10] := rfl
  rw [hval]
  decide

/-- Witness for C1: a concrete boost-mode schedule with two ordered
notifications satisfies all hypotheses of `schedule_compile_monotone`. -/
theorem schedule_compile_witness :
    (((loadSchedule 60 0 20
          ⟨"wit", false, [⟨1, 45, 64, true, false⟩], [⟨5⟩, ⟨85⟩]⟩).1.map
        ExecutionStep.time).Pairwise (· < ·)) ∧
    (((loadSchedule 60 0 20
          ⟨"wit", false, [⟨1, 45, 64, true, false⟩], [⟨5⟩, ⟨85⟩]⟩).2.map
        CompiledNotification.timePoint).Pairwise (· ≤ ·)) :=
  schedule_compile_monotone 60 0 20 _ (by norm_num) (by decide) (by decide)

end BrewEngineModel
